import Mathlib

/-!
Verification development for the LAB007-CSV2SQL service.

The repository's core is a JavaScript/Express service (`index.js` and the
document snapshots bundled in `database.js`) that (a) translates a
classifier-produced `QueryIntent` into parameterized SQL (`generateSQL`,
with input sanitization by `validateInput`), and (b) bulk-loads CSV regatta
rows into three PostgreSQL tables inside a transaction (`bulkInsertData`,
with `parseDate` for date fields and a per-row validator in the `/upload`
route).

This file shallowly embeds those functions in Lean and proves or refutes
the frozen specification claims about them.

Modeling conventions:
* JS strings are Lean `String`s; JS `null`/`undefined` are `Option.none`
  (a separate three-valued type `JsStr` is used where the code
  distinguishes a falsy empty string from null/undefined).
* JS numbers reached by the claims are integers (`Int`) or exact scaled
  decimals (an integer numerator with a power-of-ten scale);
  the floating `NaN` produced by `parseInt`/`parseFloat` on unparseable
  text is an explicit constructor (`PInt.nan`, `PDec.nan`).
* `Date` values are calendar triples (year, month, day).  The
  `new Date(y, m, d)` component constructor is modeled with JavaScript's
  two-digit-year rule and month/day overflow normalization (civil-calendar
  arithmetic).  String parsing (`new Date(string)`) is modeled for the
  ISO `YYYY-MM-DD` fast path and the textual `Month D[,] YYYY` forms the
  code's claims exercise; exotic legacy formats, time-of-day suffixes,
  hex/exponent numeric literals and locale behavior are outside the
  modeled scope.
* The PostgreSQL client is modeled as a working copy of the database:
  queries mutate the working copy, `ROLLBACK` (taken by `bulkInsertData`
  on any error) restores the pre-transaction state, `COMMIT` publishes it.
  An `Oracle : Nat → Bool` injects a possible external failure at each
  numbered query, so "any step fails" is quantified over all failure
  points.
-/

namespace CsvSql

/-! ## JavaScript string and number primitives -/

/-- Whitespace characters recognized by `String.prototype.trim` (ASCII part). -/
def isWs (c : Char) : Bool :=
  c = ' ' || c = '\t' || c = '\n' || c = '\r' || c = '\x0b' || c = '\x0c'

/-- Drop leading whitespace from a character list. -/
def trimLeftL (l : List Char) : List Char := l.dropWhile isWs

/-- Drop trailing whitespace from a character list. -/
def trimRightL (l : List Char) : List Char := (l.reverse.dropWhile isWs).reverse

/-- Character-list model of `s.trim()`. -/
def jsTrimL (l : List Char) : List Char := trimLeftL (trimRightL l)

/-- Model of JavaScript `s.trim()`. -/
def jsTrim (s : String) : String := ⟨jsTrimL s.data⟩

/-- Value of a decimal digit character. -/
def digitVal (c : Char) : Nat := c.toNat - 48

/-- Split a character list into its leading run of decimal digits and the rest. -/
def readDigits (l : List Char) : List Char × List Char :=
  (l.takeWhile Char.isDigit, l.dropWhile Char.isDigit)

/-- Numeric value of a digit run. -/
def digitsToNat (ds : List Char) : Nat :=
  ds.foldl (fun acc c => acc * 10 + digitVal c) 0

/-- Result of JavaScript `parseInt` on a string: an integer or `NaN`. -/
inductive PInt where
  | nan : PInt
  | val : Int → PInt
deriving DecidableEq, Repr

/-- Result of JavaScript `parseFloat` on a string: `NaN`, or a decimal
represented exactly as a scaled integer — `val num scale` denotes the
value `num / 10 ^ scale`.  (Decimal CSV cells are finite decimal
literals, which this representation captures exactly.) -/
inductive PDec where
  | nan : PDec
  | val : Int → Nat → PDec
deriving DecidableEq, Repr

/-- Model of JavaScript `parseInt(s)` (decimal): skip leading whitespace,
optional sign, then the longest run of digits; `NaN` when no digit is found.
(The automatic `0x` hex prefix is outside the modeled scope.) -/
def jsParseInt (s : String) : PInt :=
  let l := trimLeftL s.data
  let signed : Int × List Char :=
    match l with
    | '-' :: r => (-1, r)
    | '+' :: r => (1, r)
    | _ => (1, l)
  let ds := (readDigits signed.2).1
  if ds = [] then .nan else .val (signed.1 * (digitsToNat ds : Int))

/-- Model of JavaScript `parseFloat(s)`: skip leading whitespace, optional
sign, digits with an optional fractional part; `NaN` when no digit is found.
(Exponents and `Infinity` are outside the modeled scope.) -/
def jsParseFloat (s : String) : PDec :=
  let l := trimLeftL s.data
  let signed : Int × List Char :=
    match l with
    | '-' :: r => (-1, r)
    | '+' :: r => (1, r)
    | _ => (1, l)
  let intPart := readDigits signed.2
  match intPart.2 with
  | '.' :: r2 =>
      let fs := (readDigits r2).1
      if intPart.1 = [] ∧ fs = [] then .nan
      else .val (signed.1 * ((digitsToNat intPart.1 : Int) * (10 : Int) ^ fs.length +
        (digitsToNat fs : Int))) fs.length
  | _ => if intPart.1 = [] then .nan
         else .val (signed.1 * (digitsToNat intPart.1 : Int)) 0

/-- Model of the `Number(s)` coercion as used for `Date` constructor
arguments (already truncated to an integer, as the constructor's
`ToInteger` does): whole-string numeric literal with optional sign and
fraction; the empty / all-whitespace string is `0`; anything else is `NaN`
(`none`).  Hex and exponent literals are outside the modeled scope. -/
def jsToNumber (s : String) : Option Int :=
  let t := jsTrimL s.data
  if t = [] then some 0
  else
    let signed : Int × List Char :=
      match t with
      | '-' :: r => (-1, r)
      | '+' :: r => (1, r)
      | _ => (1, t)
    let intPart := readDigits signed.2
    match intPart.2 with
    | [] => if intPart.1 = [] then none else some (signed.1 * (digitsToNat intPart.1 : Int))
    | '.' :: r2 =>
        let fracPart := readDigits r2
        if fracPart.2 = [] then
          if intPart.1 = [] ∧ fracPart.1 = [] then none
          else some (signed.1 * (digitsToNat intPart.1 : Int))
        else none
    | _ => none

/-- First-occurrence deduplication with an accumulator of already-seen
values. -/
def dedupFirstAux (seen : List String) : List String → List String
  | [] => []
  | x :: xs =>
      if x ∈ seen then dedupFirstAux seen xs
      else x :: dedupFirstAux (seen ++ [x]) xs

/-- First-occurrence deduplication, the iteration order of a JavaScript
`Set` built from a list. -/
def dedupFirst (l : List String) : List String := dedupFirstAux [] l

/-- Substring matching at the head of a list. -/
def leadMatch : List Char → List Char → Bool
  | [], _ => true
  | _ :: _, [] => false
  | c :: cs, d :: ds => c = d && leadMatch cs ds

/-- Whether `needle` occurs contiguously inside `hay`. -/
def containsL (needle : List Char) : List Char → Bool
  | [] => needle = []
  | c :: t => leadMatch needle (c :: t) || containsL needle t

/-- Whether `needle` occurs contiguously inside `hay`, on strings. -/
def containsStr (hay needle : String) : Bool := containsL needle.data hay.data

/-! ## Calendar dates and the JavaScript `Date` model -/

/-- A calendar date: year, 1-based month, 1-based day. -/
structure Ymd where
  year : Int
  month : Int
  day : Int
deriving DecidableEq, Repr

/-- Days from civil epoch 1970-01-01 for a (valid) calendar date
(Howard Hinnant's `days_from_civil`). -/
def daysFromCivil (y m d : Int) : Int :=
  let y' := y - (if m ≤ 2 then 1 else 0)
  let era := (if 0 ≤ y' then y' else y' - 399) / 400
  let yoe := y' - era * 400
  let mp := m + (if 2 < m then -3 else 9)
  let doy := (153 * mp + 2) / 5 + d - 1
  let doe := yoe * 365 + yoe / 4 - yoe / 100 + doy
  era * 146097 + doe - 719468

/-- Civil calendar date from days since 1970-01-01
(Howard Hinnant's `civil_from_days`). -/
def civilFromDays (z0 : Int) : Ymd :=
  let z := z0 + 719468
  let era := (if 0 ≤ z then z else z - 146096) / 146097
  let doe := z - era * 146097
  let yoe := (doe - doe / 1460 + doe / 36524 - doe / 146096) / 365
  let y := yoe + era * 400
  let doy := doe - (365 * yoe + yoe / 4 - yoe / 100)
  let mp := (5 * doy + 2) / 153
  let d := doy - (153 * mp + 2) / 5 + 1
  let m := mp + (if mp < 10 then 3 else -9)
  ⟨y + (if m ≤ 2 then 1 else 0), m, d⟩

/-- Model of `new Date(year, monthIndex, day)` with integer arguments:
JavaScript's two-digit-year rule (0–99 maps to 1900–1999), then field
overflow normalized by calendar arithmetic.  The constructor never yields
an invalid date for finite integer arguments. -/
def mkJsDate (y m0 d : Int) : Ymd :=
  let yy := if 0 ≤ y ∧ y ≤ 99 then 1900 + y else y
  let y1 := yy + Int.fdiv m0 12
  let m1 := m0 - 12 * Int.fdiv m0 12
  civilFromDays (daysFromCivil y1 (m1 + 1) 1 + (d - 1))

/-- Whether `y` is a leap year. -/
def isLeap (y : Int) : Bool := y % 4 = 0 && (y % 100 ≠ 0 || y % 400 = 0)

/-- Number of days in month `m` of year `y` (month 1-based). -/
def daysInMonth (y m : Int) : Int :=
  if m = 2 then (if isLeap y then 29 else 28)
  else if m = 4 ∨ m = 6 ∨ m = 9 ∨ m = 11 then 30
  else 31

/-- Lowercasing of an ASCII letter list. -/
def lowerAscii (l : List Char) : List Char :=
  l.map (fun c => if 'A' ≤ c ∧ c ≤ 'Z' then Char.ofNat (c.toNat + 32) else c)

/-- English month names and standard three-letter abbreviations, as the
textual `Date` parser accepts them, mapped to 1-based month numbers. -/
def monthIndex (w : String) : Option Int :=
  let t := String.mk (lowerAscii w.data)
  if t = "january" ∨ t = "jan" then some 1
  else if t = "february" ∨ t = "feb" then some 2
  else if t = "march" ∨ t = "mar" then some 3
  else if t = "april" ∨ t = "apr" then some 4
  else if t = "may" then some 5
  else if t = "june" ∨ t = "jun" then some 6
  else if t = "july" ∨ t = "jul" then some 7
  else if t = "august" ∨ t = "aug" then some 8
  else if t = "september" ∨ t = "sep" then some 9
  else if t = "october" ∨ t = "oct" then some 10
  else if t = "november" ∨ t = "nov" then some 11
  else if t = "december" ∨ t = "dec" then some 12
  else none

/-- Whether a character is an ASCII letter. -/
def isAsciiLetter (c : Char) : Bool :=
  ('A' ≤ c ∧ c ≤ 'Z') || ('a' ≤ c ∧ c ≤ 'z')

/-- Strict ISO `YYYY-MM-DD` parse of `new Date(string)` (the ES date-only
fast path; the resulting time value is UTC midnight, so the calendar triple
is the literal one).  Invalid month or day-of-month yields an invalid date. -/
def parseIsoDate (s : String) : Option Ymd :=
  match s.data with
  | [y1, y2, y3, y4, '-', m1, m2, '-', d1, d2] =>
      if (y1.isDigit && y2.isDigit && y3.isDigit && y4.isDigit &&
          m1.isDigit && m2.isDigit && d1.isDigit && d2.isDigit) then
        let y : Int := digitsToNat [y1, y2, y3, y4]
        let m : Int := digitsToNat [m1, m2]
        let d : Int := digitsToNat [d1, d2]
        if 1 ≤ m ∧ m ≤ 12 ∧ 1 ≤ d ∧ d ≤ daysInMonth y m then some ⟨y, m, d⟩ else none
      else none
  | _ => none

/-- Textual `Month D, YYYY` / `Month D YYYY` parse of `new Date(string)`
(legacy parser shapes used by this repository's data).  The month word must
be a recognized English month name, the day must fit the month, and the
year must be four digits. -/
def parseTextualDate (s : String) : Option Ymd :=
  let l := jsTrimL s.data
  let word := l.takeWhile isAsciiLetter
  let r1 := l.dropWhile isAsciiLetter
  match monthIndex (String.mk word) with
  | none => none
  | some m =>
      let r2 := r1.dropWhile isWs
      if r1.takeWhile isWs = [] then none
      else
        let dayDigits := r2.takeWhile Char.isDigit
        let r3 := r2.dropWhile Char.isDigit
        if dayDigits = [] then none
        else
          let r4 := match r3 with
                    | ',' :: t => t
                    | _ => r3
          let r5 := r4.dropWhile isWs
          if r4.takeWhile isWs = [] then none
          else
            match r5 with
            | [a, b, c, d] =>
                if a.isDigit && b.isDigit && c.isDigit && d.isDigit then
                  let y : Int := digitsToNat [a, b, c, d]
                  let dd : Int := digitsToNat dayDigits
                  if 1 ≤ dd ∧ dd ≤ daysInMonth y m then some ⟨y, m, dd⟩ else none
                else none
            | _ => none

/-- Model of `new Date(string)` for the formats within scope: the ISO
date-only form, then the textual month-name form. -/
def jsDateParseString (s : String) : Option Ymd :=
  match parseIsoDate s with
  | some d => some d
  | none => parseTextualDate s

/-! ## `parseDate` and the upload-route row validation -/

/-- A JavaScript string-typed value which may be `null` or `undefined`. -/
inductive JsStr where
  | null : JsStr
  | undef : JsStr
  | str : String → JsStr
deriving DecidableEq, Repr

/-- One step of the fallback regex
`([A-Za-z]+)\s+(\d+),?\s+(\d{4})`: attempt a match starting exactly at the
head of `l`; on success return the captured month word, day digits and
four-digit year (the character classes are pairwise disjoint, so greedy
matching is exact). -/
def monthRegexAt (l : List Char) : Option (String × String × String) :=
  let word := l.takeWhile isAsciiLetter
  let r1 := l.dropWhile isAsciiLetter
  if word = [] then none
  else
    let ws1 := r1.takeWhile isWs
    let r2 := r1.dropWhile isWs
    if ws1 = [] then none
    else
      let ds := r2.takeWhile Char.isDigit
      let r3 := r2.dropWhile Char.isDigit
      if ds = [] then none
      else
        let r4 := match r3 with
                  | ',' :: t => t
                  | _ => r3
        let ws2 := r4.takeWhile isWs
        let r5 := r4.dropWhile isWs
        if ws2 = [] then none
        else
          match r5 with
          | a :: b :: c :: d :: _ =>
              if a.isDigit && b.isDigit && c.isDigit && d.isDigit then
                some (String.mk word, String.mk ds, String.mk [a, b, c, d])
              else none
          | _ => none

/-- Leftmost match of the fallback regex anywhere in the list. -/
def monthRegexSearch : List Char → Option (String × String × String)
  | [] => none
  | c :: t =>
      match monthRegexAt (c :: t) with
      | some r => some r
      | none => monthRegexSearch t

/-- Whether the string has an ASCII letter (the `dateStr.match(/[A-Za-z]+/)`
test). -/
def hasLetter (s : String) : Bool := s.data.any isAsciiLetter

/-- Whether the string contains the character (`s.includes(c)`). -/
def strHasChar (s : String) (c : Char) : Bool := s.data.any (fun d => d = c)

/-- Character-level split (`s.split('/')` for a one-character separator). -/
def splitOnCharL (c : Char) : List Char → List (List Char)
  | [] => [[]]
  | d :: t =>
      let r := splitOnCharL c t
      if d = c then [] :: r
      else
        match r with
        | h :: t2 => (d :: h) :: t2
        | [] => [[d]]

/-- String-level split on a single character. -/
def jsSplitOnChar (s : String) (c : Char) : List String :=
  (splitOnCharL c s.data).map String.mk

/-- The branch dispatch shared by `parseDate` and the `/upload` route's
inline date validation, applied to the already-trimmed date string:
slash-delimited `MM/DD/YYYY` via the component constructor (a local
calendar date), else hyphenated strings via `new Date(string)`, else
letter-containing strings via `new Date(string)` with the regex fallback;
anything else leaves the date undefined (invalid). -/
def parseDateCore (s : String) : Option Ymd :=
  if strHasChar s '/' then
    match jsSplitOnChar s '/' with
    | month :: day :: year :: _ =>
        match jsToNumber year, jsToNumber month, jsToNumber day with
        | some y, some m, some d => some (mkJsDate y (m - 1) d)
        | _, _, _ => none
    | _ => none
  else if strHasChar s '-' then
    jsDateParseString s
  else if hasLetter s then
    match jsDateParseString s with
    | some d => some d
    | none =>
        match monthRegexSearch s.data with
        | some (mo, dd, yy) => jsDateParseString (mo ++ " " ++ dd ++ ", " ++ yy)
        | none => none
  else none

/-- Model of the helper `parseDate(dateStr)` (database.js 918–948): falsy
input (`null`, `undefined`, the empty string) yields `null`; otherwise the
trimmed string goes through the three-shape dispatch, and an invalid result
yields `null`.  The surrounding `try`/`catch` also yields `null`, so the
function never throws. -/
def parseDate (dateStr : JsStr) : Option Ymd :=
  match dateStr with
  | .null => none
  | .undef => none
  | .str s => if s = "" then none else parseDateCore (jsTrim s)

/-- A raw CSV row as handed to the upload route / `bulkInsertData`:
column text values (absent column = `none`) plus the tracked source line
number (`_lineNumber`; `none` when the caller did not attach one). -/
structure RawRow where
  regattaName : Option String := none
  regattaDate : Option String := none
  skipper : Option String := none
  yachtClub : Option String := none
  category : Option String := none
  boatName : Option String := none
  sailNumber : Option String := none
  position : Option String := none
  totalPoints : Option String := none
  lineNumber : Option Nat := none
deriving DecidableEq, Repr

/-- JavaScript rendering of the row number in error messages
(`undefined` when the row carries no `_lineNumber`). -/
def rowNumStr (n : Option Nat) : String :=
  match n with
  | some k => toString k
  | none => "undefined"

/-- Truthiness of `field?.trim()`: false for an absent field and for a
field that is empty after trimming. -/
def truthyTrim (v : Option String) : Bool :=
  match v with
  | none => false
  | some s => jsTrim s ≠ ""

/-- Model of the `/upload` route's per-row validation (database.js
1050–1091): regatta name, skipper and date must be present, and the date
must parse under the same three-shape dispatch; failures carry the 1-based
source line number, and an invalid date error names the offending string. -/
def validateRow (row : RawRow) : Except String Unit :=
  let rowNum := rowNumStr row.lineNumber
  if ¬ truthyTrim row.regattaName then .error ("Missing Regatta Name in row " ++ rowNum)
  else if ¬ truthyTrim row.skipper then .error ("Missing Skipper in row " ++ rowNum)
  else if ¬ truthyTrim row.regattaDate then .error ("Missing Date in row " ++ rowNum)
  else
    let dateStr := jsTrim ((row.regattaDate).getD "")
    match parseDateCore dateStr with
    | some _ => .ok ()
    | none => .error ("Invalid date format in row " ++ rowNum ++ ": " ++ dateStr)

/-! ## The input sanitizer `validateInput` -/

/-- Result of `validateInput`: `null`, a sanitized integer, or a sanitized
string. -/
inductive CleanVal where
  | null : CleanVal
  | int : Int → CleanVal
  | str : String → CleanVal
deriving DecidableEq, Repr

/-- The `string` kind's cleaning: remove `%` and `;`, then trim
(`String(value).replace(/[%;]/g, '').trim()`). -/
def cleanStringOf (s : String) : String :=
  jsTrim ⟨s.data.filter (fun c => !(c = '%' || c = ';'))⟩

/-- Model of `validateInput(value, type)` (database.js 426–443). -/
def validateInput (value : Option String) (type : String) : CleanVal :=
  match value with
  | none => .null
  | some s =>
      if type = "year" then
        match jsParseInt s with
        | .nan => .null
        | .val year => if year < 1900 ∨ 2100 < year then .null else .int year
      else if type = "position" then
        match jsParseInt s with
        | .nan => .null
        | .val pos => if pos < 1 then .null else .int pos
      else if type = "string" then
        .str (cleanStringOf s)
      else .null

/-- JavaScript truthiness of a `validateInput` result (`null`, `0` and the
empty string are falsy). -/
def truthyClean (v : CleanVal) : Bool :=
  match v with
  | .null => false
  | .int n => n ≠ 0
  | .str s => s ≠ ""

/-- String payload of a cleaned value (used after a truthiness check). -/
def strValOf (v : CleanVal) : String :=
  match v with
  | .str s => s
  | _ => ""

/-- Integer payload of a cleaned value (used after a truthiness check). -/
def intValOf (v : CleanVal) : Int :=
  match v with
  | .int n => n
  | _ => 0

/-! ## The query builder `generateSQL` (updated version, database.js 560–696) -/

/-- A positional query parameter (string or integer). -/
inductive Param where
  | pstr : String → Param
  | pint : Int → Param
deriving DecidableEq, Repr

/-- Result of the query builder: the SQL template and the ordered
positional parameters. -/
structure SqlOut where
  query : String
  params : List Param
deriving DecidableEq, Repr

/-- The classifier's structured output (`QueryIntent`): a query type plus
optional extracted fields, all as JSON strings or null. -/
structure Analysis where
  queryType : Option String := none
  sailorName : Option String := none
  yachtClub : Option String := none
  regattaName : Option String := none
  location : Option String := none
  year : Option String := none
  position : Option String := none
  timeFrame : Option String := none
deriving DecidableEq, Repr

/-- Template-literal rendering of a possibly-null value
(`null` prints as the text "null"). -/
def jsTemplateStr (v : Option String) : String := v.getD "null"

/-- An `n`-space indentation (the JS template literals keep their source
indentation). -/
def sp (n : Nat) : String := String.mk (List.replicate n ' ')

/-- The single-quote character as a string (for SQL literals inside
templates). -/
def sq : String := String.mk [Char.ofNat 39]

/-- Base template of the `sailor_search` query type. -/
def sailorSearchTemplate : String :=
  "\n" ++ sp 16 ++ "SELECT \n" ++
  sp 20 ++ "s.name as skipper_name,\n" ++
  sp 20 ++ "s.yacht_club,\n" ++
  sp 20 ++ "r.boat_name,\n" ++
  sp 20 ++ "COUNT(DISTINCT r.id) as total_races,\n" ++
  sp 20 ++ "COUNT(DISTINCT CASE WHEN res.position = 1 THEN r.id END) as wins,\n" ++
  sp 20 ++ "MIN(res.position) as best_position,\n" ++
  sp 20 ++ "MIN(r.regatta_date) as first_race,\n" ++
  sp 20 ++ "MAX(r.regatta_date) as last_race\n" ++
  sp 16 ++ "FROM (\n" ++
  sp 20 ++ "SELECT id, name, yacht_club \n" ++
  sp 20 ++ "FROM skippers \n" ++
  sp 20 ++ "WHERE LOWER(name) LIKE LOWER($1)\n" ++
  sp 20 ++ "UNION\n" ++
  sp 20 ++ "SELECT DISTINCT s.id, s.name, s.yacht_club\n" ++
  sp 20 ++ "FROM skippers s\n" ++
  sp 20 ++ "JOIN results res ON s.id = res.skipper_id\n" ++
  sp 20 ++ "JOIN races r ON res.race_id = r.id\n" ++
  sp 20 ++ "WHERE LOWER(r.boat_name) LIKE LOWER($1)\n" ++
  sp 16 ++ ") s\n" ++
  sp 16 ++ "LEFT JOIN results res ON s.id = res.skipper_id\n" ++
  sp 16 ++ "LEFT JOIN races r ON res.race_id = r.id\n" ++
  sp 16 ++ "GROUP BY s.id, s.name, s.yacht_club, r.boat_name\n" ++
  sp 16 ++ "ORDER BY s.name ASC\n" ++ sp 12

/-- Base template of the `database_status` query type. -/
def databaseStatusTemplate : String :=
  "\n" ++ sp 20 ++ "SELECT \n" ++
  sp 24 ++ "(SELECT COUNT(*) FROM skippers) as total_sailors,\n" ++
  sp 24 ++ "(SELECT COUNT(*) FROM races) as total_races,\n" ++
  sp 24 ++ "(SELECT COUNT(*) FROM results) as total_results,\n" ++
  sp 24 ++ "(SELECT MIN(regatta_date) FROM races) as earliest_race,\n" ++
  sp 24 ++ "(SELECT MAX(regatta_date) FROM races) as latest_race,\n" ++
  sp 24 ++ "(SELECT COUNT(DISTINCT yacht_club) FROM skippers WHERE yacht_club IS NOT NULL) as total_clubs\n" ++
  sp 16

/-- Base template of the `regatta_count` query type. -/
def regattaCountTemplate : String :=
  "\n" ++ sp 16 ++ "SELECT \n" ++
  sp 20 ++ "regatta_name,\n" ++
  sp 20 ++ "regatta_date,\n" ++
  sp 20 ++ "category,\n" ++
  sp 20 ++ "COUNT(DISTINCT res.skipper_id) as participants\n" ++
  sp 16 ++ "FROM races r\n" ++
  sp 16 ++ "LEFT JOIN results res ON r.id = res.race_id\n" ++
  sp 16 ++ "WHERE 1=1\n" ++
  sp 16 ++ "GROUP BY r.id, regatta_name, regatta_date, category\n" ++ sp 12

/-- Sailor-name filter clause with its placeholder number. -/
def nameClause (n : Nat) : String := "LOWER(s.name) LIKE LOWER($" ++ toString n ++ ")"

/-- Yacht-club filter clause with its placeholder number. -/
def clubClause (n : Nat) : String := "LOWER(s.yacht_club) LIKE LOWER($" ++ toString n ++ ")"

/-- Position-cutoff filter clause with its placeholder number. -/
def posClause (n : Nat) : String := "res.position <= $" ++ toString n

/-- Regatta-name filter clause with its placeholder number. -/
def regattaClause (n : Nat) : String := "LOWER(r.regatta_name) LIKE LOWER($" ++ toString n ++ ")"

/-- Location filter clause (the code also filters it on `regatta_name`). -/
def locationClause (n : Nat) : String := "LOWER(r.regatta_name) LIKE LOWER($" ++ toString n ++ ")"

/-- Year filter clause with its placeholder number. -/
def yearClause (n : Nat) : String := "EXTRACT(YEAR FROM races.regatta_date) = $" ++ toString n

/-- The parameterless current-year clause used for `timeFrame = this_year`. -/
def thisYearClause : String :=
  "EXTRACT(YEAR FROM races.regatta_date) = EXTRACT(YEAR FROM CURRENT_DATE)"

/-- The parameterless first-place clause added for `queryType = winner`. -/
def winnerClause : String := "res.position = 1"

/-- A clause awaiting its placeholder number. -/
abbrev ClauseFn := Nat → String

/-- One `if (value) { params.push(p); conditions.push(clause($params.length)) }`
block of the source: when the guard is truthy, append the parameter and the
clause numbered by the parameter list's length after the push. -/
def pushCond (b : Bool) (clause : ClauseFn) (p : Param)
    (st : List String × List Param) : List String × List Param :=
  if b = true then (st.1 ++ [clause (st.2.length + 1)], st.2 ++ [p]) else st

/-- One guarded `conditions.push(clause)` block without a parameter
(used for the current-year and winner clauses). -/
def pushBare (b : Bool) (c : String)
    (st : List String × List Param) : List String × List Param :=
  if b = true then (st.1 ++ [c], st.2) else st

/-- The condition-building block of `generateSQL` (database.js 627–671):
validate each field, then push one clause (numbered by the parameter list's
length after its push) and one parameter per truthy value, in source order:
sailor name, yacht club, position, regatta name, location, year (or the
parameterless current-year clause), then the winner clause. -/
def buildFilters (a : Analysis) : List String × List Param :=
  let vSailor := validateInput a.sailorName "string"
  let vClub := validateInput a.yachtClub "string"
  let vRegatta := validateInput a.regattaName "string"
  let vLoc := validateInput a.location "string"
  let vYear := validateInput a.year "year"
  let vPos := validateInput a.position "position"
  let st0 : List String × List Param := ([], [])
  let st1 := pushCond (truthyClean vSailor) nameClause
      (Param.pstr ("%" ++ strValOf vSailor ++ "%")) st0
  let st2 := pushCond (truthyClean vClub) clubClause
      (Param.pstr ("%" ++ strValOf vClub ++ "%")) st1
  let st3 := pushCond (truthyClean vPos) posClause
      (Param.pint (intValOf vPos)) st2
  let st4 := pushCond (truthyClean vRegatta) regattaClause
      (Param.pstr ("%" ++ strValOf vRegatta ++ "%")) st3
  let st5 := pushCond (truthyClean vLoc) locationClause
      (Param.pstr ("%" ++ strValOf vLoc ++ "%")) st4
  let st6 := if truthyClean vYear = true then
      pushCond true yearClause (Param.pint (intValOf vYear)) st5
    else pushBare (decide (a.timeFrame = some "this_year")) thisYearClause st5
  let st7 := pushBare (decide (a.queryType = some "winner")) winnerClause st6
  st7

/-- The `conditions.join('\nAND ')` of the source. -/
def joinAnd : List String → String
  | [] => ""
  | [c] => c
  | c :: c2 :: rest => c ++ "\nAND " ++ joinAnd (c2 :: rest)

/-- The fixed `safeOrderBy` lookup table. -/
def orderLookup (qt : Option String) : Option String :=
  if qt = some "most_wins" then some "wins DESC"
  else if qt = some "winners_list" then some "races.regatta_date DESC"
  else if qt = some "sailor_search" then some "s.name ASC"
  else if qt = some "team_results" then some "races.regatta_date DESC, results.position ASC"
  else none

/-- Model of the updated `generateSQL(analysis)` (database.js 560–696):
`sailor_search` and `database_status` return fixed templates early;
`regatta_count` selects its base template; every other query type leaves
the base template empty; then the validated filters, a (dead) GROUP BY
check and the `safeOrderBy` suffix are appended. -/
def generateSQL (a : Analysis) : SqlOut :=
  if a.queryType = some "sailor_search" then
    { query := sailorSearchTemplate,
      params := [Param.pstr ("%" ++ jsTemplateStr a.sailorName ++ "%")] }
  else if a.queryType = some "database_status" then
    { query := databaseStatusTemplate, params := [] }
  else
    let baseQuery := if a.queryType = some "regatta_count" then regattaCountTemplate else ""
    let fp := buildFilters a
    let q1 := if fp.1 = [] then baseQuery else baseQuery ++ "\nAND " ++ joinAnd fp.1
    let q2 := if a.queryType = some "sailor_search" then
        q1 ++ "\nGROUP BY s.id, s.name, s.yacht_club" else q1
    let q3 := match orderLookup a.queryType with
              | some ob => q2 ++ "\nORDER BY " ++ ob
              | none => q2
    { query := q3, params := fp.2 }

/-! ### Specification-side characterization of the filter block

`specSlots` is written from the spec's words: the ordered list of present
sanitized fields (sailor name → club → position cutoff → regatta name →
location → year), each carrying its clause and its parameter; clause
numbering is the slot's 1-based position in that list. -/

/-- Rendering of an ordered slot list: clause `i` (0-based) receives
placeholder number `i + 1`, and the parameters are the slots' values in
order. -/
def renderSlots (slots : List (ClauseFn × Param)) : List String × List Param :=
  (slots.enum.map (fun p => p.2.1 (p.1 + 1)), slots.map (fun s => s.2))

/-- Ordered present sanitized fields of an intent, with clause and
parameter (specification order). -/
def specSlots (a : Analysis) : List (ClauseFn × Param) :=
  (if truthyClean (validateInput a.sailorName "string") = true then
      [(nameClause, Param.pstr ("%" ++ strValOf (validateInput a.sailorName "string") ++ "%"))] else []) ++
  (if truthyClean (validateInput a.yachtClub "string") = true then
      [(clubClause, Param.pstr ("%" ++ strValOf (validateInput a.yachtClub "string") ++ "%"))] else []) ++
  (if truthyClean (validateInput a.position "position") = true then
      [(posClause, Param.pint (intValOf (validateInput a.position "position")))] else []) ++
  (if truthyClean (validateInput a.regattaName "string") = true then
      [(regattaClause, Param.pstr ("%" ++ strValOf (validateInput a.regattaName "string") ++ "%"))] else []) ++
  (if truthyClean (validateInput a.location "string") = true then
      [(locationClause, Param.pstr ("%" ++ strValOf (validateInput a.location "string") ++ "%"))] else []) ++
  (if truthyClean (validateInput a.year "year") = true then
      [(yearClause, Param.pint (intValOf (validateInput a.year "year")))] else [])

/-- The ordered positional parameters, one per present sanitized field. -/
def specParams (a : Analysis) : List Param := (renderSlots (specSlots a)).2

/-- The ordered field clauses, numbered by position in the present list. -/
def specFieldConds (a : Analysis) : List String := (renderSlots (specSlots a)).1

/-- All appended conditions: the ordered field clauses, then the
current-year clause when no explicit year is present, then the winner
clause. -/
def specConds (a : Analysis) : List String :=
  specFieldConds a ++
  (if truthyClean (validateInput a.year "year") = true then []
   else if a.timeFrame = some "this_year" then [thisYearClause] else []) ++
  (if a.queryType = some "winner" then [winnerClause] else [])

/-- Appending through `pushCond` extends the rendered slot list by the
guarded slot. -/
theorem renderSlots_push (b : Bool) (c : ClauseFn) (p : Param)
    (slots : List (ClauseFn × Param)) :
    pushCond b c p (renderSlots slots) =
      renderSlots (slots ++ if b = true then [(c, p)] else []) := by
  cases b
  · simp [pushCond, renderSlots]
  · simp [pushCond, renderSlots, List.enum_append]

/-- A bare clause push appends the guarded clause to the conditions and
leaves the parameters unchanged. -/
theorem pushBare_render (b : Bool) (c : String)
    (st : List String × List Param) :
    pushBare b c st = (st.1 ++ (if b = true then [c] else []), st.2) := by
  cases b <;> simp [pushBare]

/-- The sequential filter block of the source equals the specification's
ordered-slot description: clauses appear in the fixed field order with
placeholder numbers equal to their 1-based position, and the parameters
are the present field values in the same order. -/
theorem buildFilters_eq_spec (a : Analysis) :
    buildFilters a = (specConds a, specParams a) := by
  simp only [buildFilters]
  rw [show (([], []) : List String × List Param) = renderSlots [] from rfl]
  rw [renderSlots_push, renderSlots_push, renderSlots_push, renderSlots_push,
    renderSlots_push]
  by_cases h6 : truthyClean (validateInput a.year "year") = true
  · simp only [h6, if_true]
    rw [renderSlots_push, pushBare_render]
    simp [specConds, specFieldConds, specParams, specSlots, h6,
      List.append_assoc, decide_eq_true_eq]
  · simp only [h6, if_false]
    rw [pushBare_render, pushBare_render]
    simp [specConds, specFieldConds, specParams, specSlots, h6,
      List.append_assoc, decide_eq_true_eq]

/-! ### Redaction: the template depends on no classifier-supplied text

`redact` replaces every classifier-supplied string in an intent by a fixed
constant while preserving exactly the data the builder is allowed to use
structurally: which recognized query type it is, which sanitized fields
are present, and whether `timeFrame` is `this_year`.  The claim that the
template contains no interpolated user text is the statement that
`generateSQL` returns the same template on `redact a` as on `a`. -/

/-- The query types `generateSQL` compares against. -/
def knownQueryTypes : List String :=
  ["sailor_search", "database_status", "regatta_count", "winner",
   "most_wins", "winners_list", "team_results"]

/-- Redact a query type: keep recognized ones, collapse the rest. -/
def redactQT (qt : Option String) : Option String :=
  match qt with
  | some t => if t ∈ knownQueryTypes then some t else none
  | none => none

/-- Redact a free-text field, preserving only its post-sanitization
presence. -/
def redactStr (v : Option String) : Option String :=
  match v with
  | none => none
  | some s => if cleanStringOf s = "" then some "" else some "X"

/-- Redact a year field, preserving only its post-sanitization presence. -/
def redactYear (v : Option String) : Option String :=
  match v with
  | none => none
  | some s =>
      match jsParseInt s with
      | .nan => some "x"
      | .val y => if y < 1900 ∨ 2100 < y then some "x" else some "2000"

/-- Redact a position field, preserving only its post-sanitization
presence. -/
def redactPos (v : Option String) : Option String :=
  match v with
  | none => none
  | some s =>
      match jsParseInt s with
      | .nan => some "x"
      | .val p => if p < 1 then some "x" else some "1"

/-- Redact the time frame, preserving only the `this_year` test. -/
def redactTF (v : Option String) : Option String :=
  if v = some "this_year" then some "this_year" else none

/-- Redaction of a whole intent. -/
def redact (a : Analysis) : Analysis :=
  { queryType := redactQT a.queryType,
    sailorName := redactStr a.sailorName,
    yachtClub := redactStr a.yachtClub,
    regattaName := redactStr a.regattaName,
    location := redactStr a.location,
    year := redactYear a.year,
    position := redactPos a.position,
    timeFrame := redactTF a.timeFrame }

theorem redactQT_eq (k : String) (hk : k ∈ knownQueryTypes) (qt : Option String) :
    redactQT qt = some k ↔ qt = some k := by
  cases qt with
  | none => simp [redactQT]
  | some t =>
      by_cases ht : t ∈ knownQueryTypes
      · simp [redactQT, ht]
      · simp only [redactQT, ht, if_neg, if_false]
        constructor
        · intro h; exact absurd h (by simp)
        · intro h
          exact absurd (Option.some_inj.mp h ▸ hk) ht

theorem redactTF_eq (v : Option String) :
    redactTF v = some "this_year" ↔ v = some "this_year" := by
  by_cases h : v = some "this_year" <;> simp [redactTF, h]

theorem truthy_string_redact (v : Option String) :
    truthyClean (validateInput (redactStr v) "string") =
      truthyClean (validateInput v "string") := by
  cases v with
  | none => rfl
  | some s =>
      by_cases h : cleanStringOf s = ""
      · have hL : redactStr (some s) = some "" := by simp [redactStr, h]
        rw [hL]
        have hc : truthyClean (validateInput (some "") "string") = false := by decide
        rw [hc]
        simp [validateInput, truthyClean, h]
      · have hL : redactStr (some s) = some "X" := by simp [redactStr, h]
        rw [hL]
        have hc : truthyClean (validateInput (some "X") "string") = true := by decide
        rw [hc]
        simp [validateInput, truthyClean, h]

theorem truthy_year_redact (v : Option String) :
    truthyClean (validateInput (redactYear v) "year") =
      truthyClean (validateInput v "year") := by
  cases v with
  | none => rfl
  | some s =>
      rcases hj : jsParseInt s with _ | y
      · have hL : redactYear (some s) = some "x" := by simp [redactYear, hj]
        rw [hL]
        simp [validateInput, truthyClean, hj]
        decide
      · by_cases hr : y < 1900 ∨ 2100 < y
        · have hL : redactYear (some s) = some "x" := by simp [redactYear, hj, hr]
          rw [hL]
          have hc : truthyClean (validateInput (some "x") "year") = false := by decide
          rw [hc]
          simp [validateInput, truthyClean, hj, hr]
        · have hL : redactYear (some s) = some "2000" := by simp [redactYear, hj, hr]
          rw [hL]
          have hc : truthyClean (validateInput (some "2000") "year") = true := by decide
          rw [hc]
          have hy : y ≠ 0 := by omega
          simp [validateInput, truthyClean, hj, hr, hy]

theorem truthy_pos_redact (v : Option String) :
    truthyClean (validateInput (redactPos v) "position") =
      truthyClean (validateInput v "position") := by
  cases v with
  | none => rfl
  | some s =>
      rcases hj : jsParseInt s with _ | p
      · have hL : redactPos (some s) = some "x" := by simp [redactPos, hj]
        rw [hL]
        simp [validateInput, truthyClean, hj]
        decide
      · by_cases hr : p < 1
        · have hL : redactPos (some s) = some "x" := by simp [redactPos, hj, hr]
          rw [hL]
          have hc : truthyClean (validateInput (some "x") "position") = false := by decide
          rw [hc]
          simp [validateInput, truthyClean, hj, hr]
        · have hL : redactPos (some s) = some "1" := by simp [redactPos, hj, hr]
          rw [hL]
          have hc : truthyClean (validateInput (some "1") "position") = true := by decide
          rw [hc]
          have hy : p ≠ 0 := by omega
          simp [validateInput, truthyClean, hj, hr, hy]

theorem specFieldConds_redact (a : Analysis) :
    specFieldConds (redact a) = specFieldConds a := by
  unfold specFieldConds specSlots redact
  simp only [truthy_string_redact, truthy_year_redact, truthy_pos_redact]
  split_ifs <;> rfl

theorem specConds_redact (a : Analysis) :
    specConds (redact a) = specConds a := by
  unfold specConds
  rw [specFieldConds_redact]
  show specFieldConds a ++
      (if truthyClean (validateInput (redact a).year "year") = true then []
       else if (redact a).timeFrame = some "this_year" then [thisYearClause] else []) ++
      (if (redact a).queryType = some "winner" then [winnerClause] else []) = _
  simp only [redact, truthy_year_redact, redactTF_eq,
    redactQT_eq "winner" (by decide)]

theorem orderLookup_redact (qt : Option String) :
    orderLookup (redactQT qt) = orderLookup qt := by
  unfold orderLookup
  simp only [redactQT_eq "most_wins" (by decide),
    redactQT_eq "winners_list" (by decide),
    redactQT_eq "sailor_search" (by decide),
    redactQT_eq "team_results" (by decide)]

theorem redact_queryType (a : Analysis) :
    (redact a).queryType = redactQT a.queryType := rfl

theorem redact_sailorName (a : Analysis) :
    (redact a).sailorName = redactStr a.sailorName := rfl

/-! ### String append helpers -/

theorem strAppend_data (a b : String) : a ++ b = String.mk (a.data ++ b.data) := by
  cases a; cases b; rfl

theorem str_empty_append (s : String) : "" ++ s = s := by
  cases s; rw [strAppend_data]; simp

theorem str_append_empty (s : String) : s ++ "" = s := by
  cases s; rw [strAppend_data]; simp

theorem str_append_assoc (x y z : String) : x ++ y ++ z = x ++ (y ++ z) := by
  cases x; cases y; cases z
  rw [strAppend_data, strAppend_data, strAppend_data, strAppend_data]
  simp

/-! ### Rendering of the assembled query -/

/-- The appended-conditions suffix: empty when there are no conditions,
otherwise a leading `\nAND ` followed by the `\nAND `-joined clauses. -/
def condRender (c : List String) : String :=
  if c = [] then "" else "\nAND " ++ joinAnd c

/-- The `ORDER BY` suffix from the fixed lookup table. -/
def orderRender (qt : Option String) : String :=
  match orderLookup qt with
  | some ob => "\nORDER BY " ++ ob
  | none => ""

/-! ## The legacy query builder (database.js 88–177) -/

/-- Base template of the legacy `most_wins` query type. -/
def mostWinsTemplateV1 : String :=
  "\n" ++ sp 16 ++ "SELECT \n" ++
  sp 20 ++ "skippers.name as skipper_name,\n" ++
  sp 20 ++ "skippers.yacht_club,\n" ++
  sp 20 ++ "COUNT(*) as wins,\n" ++
  sp 20 ++ "array_agg(races.regatta_name) as races_won\n" ++
  sp 16 ++ "FROM results\n" ++
  sp 16 ++ "JOIN races ON results.race_id = races.id\n" ++
  sp 16 ++ "JOIN skippers ON results.skipper_id = skippers.id\n" ++
  sp 16 ++ "WHERE position = 1\n" ++ sp 12

/-- Base template of the legacy `winners_list` query type. -/
def winnersListTemplateV1 : String :=
  "\n" ++ sp 16 ++ "SELECT \n" ++
  sp 20 ++ "TO_CHAR(races.regatta_date, " ++ sq ++ "YYYY-MM-DD" ++ sq ++ ") as race_date,\n" ++
  sp 20 ++ "races.regatta_name,\n" ++
  sp 20 ++ "skippers.name as skipper_name,\n" ++
  sp 20 ++ "skippers.yacht_club,\n" ++
  sp 20 ++ "races.category\n" ++
  sp 16 ++ "FROM results\n" ++
  sp 16 ++ "JOIN races ON results.race_id = races.id\n" ++
  sp 16 ++ "JOIN skippers ON results.skipper_id = skippers.id\n" ++
  sp 16 ++ "WHERE position = 1\n" ++ sp 12

/-- Base template of the legacy default (raw listing) query type: the
"default listing template" of the specification. -/
def defaultListingTemplate : String :=
  "\n" ++ sp 16 ++ "SELECT \n" ++
  sp 20 ++ "TO_CHAR(races.regatta_date, " ++ sq ++ "YYYY-MM-DD" ++ sq ++ ") as race_date,\n" ++
  sp 20 ++ "races.regatta_name,\n" ++
  sp 20 ++ "races.category,\n" ++
  sp 20 ++ "races.boat_name,\n" ++
  sp 20 ++ "races.sail_number,\n" ++
  sp 20 ++ "skippers.name as skipper_name,\n" ++
  sp 20 ++ "skippers.yacht_club,\n" ++
  sp 20 ++ "results.position,\n" ++
  sp 20 ++ "results.total_points\n" ++
  sp 16 ++ "FROM results\n" ++
  sp 16 ++ "JOIN races ON results.race_id = races.id\n" ++
  sp 16 ++ "JOIN skippers ON results.skipper_id = skippers.id\n" ++
  sp 16 ++ "WHERE 1=1\n" ++ sp 12

/-- Truthiness of a raw optional string field. -/
def truthyStrOpt (v : Option String) : Bool :=
  match v with
  | none => false
  | some s => s ≠ ""

/-- Query-building state of the legacy builder: the growing query text,
the parameters, and the running `paramCount`. -/
structure V1St where
  q : String
  ps : List Param
  cnt : Nat
deriving DecidableEq, Repr

/-- Model of the first-version `generateSQL(analysis)` (database.js
88–177).  Conditions are appended directly to the query text; sailor and
regatta names go through positional parameters, but a truthy
`analysis.year` is interpolated into the template string itself
(line 154). -/
def generateSQL_v1 (a : Analysis) : SqlOut :=
  let baseQuery := if a.queryType = some "most_wins" then mostWinsTemplateV1
    else if a.queryType = some "winners_list" then winnersListTemplateV1
    else defaultListingTemplate
  let st0 : V1St := ⟨baseQuery, [], 1⟩
  let st1 := if truthyStrOpt a.sailorName = true then
      { q := st0.q ++ "\nAND LOWER(skippers.name) LIKE LOWER($" ++ toString st0.cnt ++ ")",
        ps := st0.ps ++ [Param.pstr ("%" ++ jsTemplateStr a.sailorName ++ "%")],
        cnt := st0.cnt + 1 } else st0
  let st2 := if truthyStrOpt a.regattaName = true then
      { q := st1.q ++ "\nAND LOWER(races.regatta_name) LIKE LOWER($" ++ toString st1.cnt ++ ")",
        ps := st1.ps ++ [Param.pstr ("%" ++ jsTemplateStr a.regattaName ++ "%")],
        cnt := st1.cnt + 1 } else st1
  let st3 := if truthyStrOpt a.year = true then
      { st2 with q := st2.q ++ "\nAND EXTRACT(YEAR FROM races.regatta_date) = " ++
          jsTemplateStr a.year }
    else if a.timeFrame = some "this_year" then
      { st2 with q := st2.q ++
          "\nAND EXTRACT(YEAR FROM races.regatta_date) = EXTRACT(YEAR FROM CURRENT_DATE)" }
    else st2
  let st4 := if a.queryType = some "winner" then
      { st3 with q := st3.q ++ "\nAND results.position = 1" } else st3
  let qFinal := if a.queryType = some "most_wins" then
      st4.q ++ "\nGROUP BY skippers.name, skippers.yacht_club" ++ "\nORDER BY wins DESC"
    else if a.queryType = some "winners_list" then
      st4.q ++ "\nORDER BY races.regatta_date DESC"
    else st4.q ++ "\nORDER BY races.regatta_date DESC, results.position ASC"
  ⟨qFinal, st4.ps⟩

/-! ## Helper lemmas about trimming and character membership -/

theorem dropWhile_head_not (p : Char → Bool) (l : List Char) :
    ∀ c, (l.dropWhile p).head? = some c → p c = false := by
  induction l with
  | nil => intro c h; simp [List.dropWhile] at h
  | cons a t ih =>
      intro c h
      by_cases hp : p a
      · rw [List.dropWhile_cons_of_pos hp] at h
        exact ih c h
      · rw [List.dropWhile_cons_of_neg hp] at h
        simp at h
        rw [← h]
        exact Bool.eq_false_iff.mpr hp

theorem dropWhile_getLast_eq (p : Char → Bool) (l : List Char)
    (h : l.dropWhile p ≠ []) : (l.dropWhile p).getLast? = l.getLast? := by
  induction l with
  | nil => simp at h
  | cons a t ih =>
      by_cases hp : p a
      · rw [List.dropWhile_cons_of_pos hp] at h ⊢
        rw [ih h]
        have ht : t ≠ [] := by
          intro he; rw [he] at h; simp [List.dropWhile] at h
        rcases t with _ | ⟨b, l'⟩
        · exact absurd rfl ht
        · rw [List.getLast?_cons_cons]
      · rw [List.dropWhile_cons_of_neg hp]

theorem mem_trimRightL (c : Char) (l : List Char) (h : c ∈ trimRightL l) : c ∈ l := by
  unfold trimRightL at h
  rw [List.mem_reverse] at h
  have h2 := (List.dropWhile_sublist (l := l.reverse) (p := isWs)).subset h
  rwa [List.mem_reverse] at h2

theorem mem_jsTrimL (c : Char) (l : List Char) (h : c ∈ jsTrimL l) : c ∈ l := by
  unfold jsTrimL trimLeftL at h
  have h2 := (List.dropWhile_sublist (l := trimRightL l) (p := isWs)).subset h
  exact mem_trimRightL c l h2

/-- Whether a character occurs in a list. -/
def hasChar (l : List Char) (c : Char) : Bool := l.any (fun d => d = c)

theorem hasChar_false (l : List Char) (c : Char) (h : c ∉ l) : hasChar l c = false := by
  unfold hasChar
  rw [List.any_eq_false]
  intro d hd
  simp only [decide_eq_true_eq]
  intro he
  exact h (he ▸ hd)

/-- Whether a string has neither a leading nor a trailing whitespace
character. -/
def noEdgeWsB (t : String) : Bool :=
  (t.data.head?.all (fun c => !(isWs c))) && (t.data.getLast?.all (fun c => !(isWs c)))

theorem noEdgeWs_of_trim (m : List Char) : noEdgeWsB (String.mk (jsTrimL m)) = true := by
  unfold noEdgeWsB
  have hdata : (String.mk (jsTrimL m)).data = jsTrimL m := rfl
  rw [hdata]
  apply Bool.and_eq_true_iff.mpr
  constructor
  · rcases hh : (jsTrimL m).head? with _ | c
    · rfl
    · have := dropWhile_head_not isWs (trimRightL m) c hh
      simp [Option.all, this]
  · rcases hl : (jsTrimL m).getLast? with _ | c
    · rfl
    · by_cases hne : jsTrimL m = []
      · rw [hne] at hl; simp at hl
      · have h2 : (jsTrimL m).getLast? = (trimRightL m).getLast? :=
          dropWhile_getLast_eq isWs (trimRightL m) hne
        rw [h2] at hl
        unfold trimRightL at hl
        rw [List.getLast?_reverse] at hl
        have := dropWhile_head_not isWs m.reverse c hl
        simp [Option.all, this]

theorem not_mem_clean (s : String) (c : Char)
    (hc : (!(c = '%' || c = ';')) = false) : c ∉ (cleanStringOf s).data := by
  intro hmem
  unfold cleanStringOf jsTrim at hmem
  have h2 := mem_jsTrimL c _ hmem
  have h3 := (List.mem_filter.mp h2).2
  rw [hc] at h3
  exact absurd h3 (by simp)

/-! ## Claim theorems: query builder and sanitizer -/

/-- Claim C1 (amended): for the updated query builder `generateSQL`
(database.js 560–696), the returned SQL template contains no directly
interpolated classifier-supplied text — replacing every classifier string
by a fixed constant (preserving only the recognized query type, the
presence of each sanitized field and the `this_year` flag) leaves the
template unchanged, so classifier values reach the query only through the
positional parameter list. -/
theorem c1_template_invariant_under_redaction (a : Analysis) :
    (generateSQL (redact a)).query = (generateSQL a).query := by
  by_cases hs : a.queryType = some "sailor_search"
  · simp [generateSQL, redact_queryType,
      redactQT_eq "sailor_search" (by decide), hs]
  · by_cases hd : a.queryType = some "database_status"
    · simp [generateSQL, redact_queryType,
        redactQT_eq "sailor_search" (by decide),
        redactQT_eq "database_status" (by decide), hs, hd]
    · simp only [generateSQL, redact_queryType]
      rw [buildFilters_eq_spec, buildFilters_eq_spec]
      simp [redactQT_eq "sailor_search" (by decide),
        redactQT_eq "database_status" (by decide),
        redactQT_eq "regatta_count" (by decide),
        hs, hd, specConds_redact, orderLookup_redact]

/-- Intent with an explicit year, as the legacy builder receives it. -/
def c1cxA : Analysis := { queryType := some "most_wins", year := some "2024" }

/-- The same intent with a different year value (same shape). -/
def c1cxB : Analysis := { queryType := some "most_wins", year := some "2025" }

set_option maxRecDepth 16384 in
/-- Claim C1 counterexample: the legacy `generateSQL` (database.js 88–177,
cited at lines 153–157) splices the classifier-supplied `year` into the
template itself: the parameter list is empty, the year text occurs inside
the template string, and two intents differing only in the year value
yield different templates. -/
theorem c1_counterexample_legacy_year_spliced :
    (generateSQL_v1 c1cxA).params = [] ∧
    containsStr (generateSQL_v1 c1cxA).query "2024" = true ∧
    (generateSQL_v1 c1cxA).query ≠ (generateSQL_v1 c1cxB).query := by decide

/-- Intent with a query type none of the builder's cases recognize. -/
def c4cx : Analysis := { queryType := some "performance_stats" }

/-- Claim C4 counterexample: an unrecognized `queryType` does not fall
back to the default listing template — the updated builder has no default
case, so the base template is the empty string (here the whole query is
empty), which differs from the default listing template. -/
theorem c4_counterexample_no_default_template :
    (generateSQL c4cx).query = "" ∧
    (generateSQL c4cx).params = [] ∧
    defaultListingTemplate ≠ "" := by decide

/-- Claim C4 (amended): for every intent whose `queryType` is not
`sailor_search`, `database_status` or `regatta_count`, `generateSQL`
returns normally with the EMPTY base template: its query is exactly the
appended filter clauses plus any mapped `ORDER BY` suffix (not the default
listing template). -/
theorem c4_unrecognized_type_empty_base (a : Analysis)
    (hs : a.queryType ≠ some "sailor_search")
    (hd : a.queryType ≠ some "database_status")
    (hr : a.queryType ≠ some "regatta_count") :
    (generateSQL a).query = condRender (specConds a) ++ orderRender a.queryType ∧
    (generateSQL a).params = specParams a := by
  simp only [generateSQL]
  rw [buildFilters_eq_spec]
  simp only [hs, hd, hr, if_neg, if_false]
  constructor
  · unfold condRender orderRender
    by_cases hc : specConds a = []
    · rcases ho : orderLookup a.queryType with _ | ob <;>
        simp [hc, hs, ho, str_empty_append, str_append_empty]
    · rcases ho : orderLookup a.queryType with _ | ob <;>
        simp [hc, hs, ho, str_empty_append, str_append_empty, str_append_assoc]
  · simp

/-- Witness intent for C4: `most_wins` is not one of the three template
types. -/
def c4w : Analysis := { queryType := some "most_wins", sailorName := some "John" }

theorem c4_witness :
    (generateSQL c4w).query = condRender (specConds c4w) ++ orderRender c4w.queryType ∧
    (generateSQL c4w).query = "\nAND LOWER(s.name) LIKE LOWER($1)\nORDER BY wins DESC" :=
  ⟨(c4_unrecognized_type_empty_base c4w (by decide) (by decide) (by decide)).1,
   by decide⟩

/-- Intent whose type returns early while other sanitized fields are
present. -/
def c9cx : Analysis :=
  { queryType := some "sailor_search", sailorName := some "John",
    yachtClub := some "SYC" }

/-- Claim C9 counterexample: for a `sailor_search` intent the builder
returns early with a fixed single-parameter template, so a present
sanitized yacht club receives no clause and no parameter — refuting the
claim's "for every QueryIntent" quantification. -/
theorem c9_counterexample_early_return_skips_fields :
    (generateSQL c9cx).params = [Param.pstr "%John%"] ∧
    truthyClean (validateInput (some "SYC") "string") = true ∧
    Param.pstr "%SYC%" ∉ (generateSQL c9cx).params := by decide

/-- Claim C9 (amended): for every intent whose `queryType` is not
`sailor_search` or `database_status` (which return fixed templates early),
`generateSQL` appends one AND clause per present sanitized field in the
fixed deterministic order sailor name → yacht club → position cutoff →
regatta name → location → year, with positional parameter numbers equal to
each field's 1-based position among the present fields; the parameter list
is exactly the present field values in that order. -/
theorem c9_filter_order_deterministic (a : Analysis)
    (hs : a.queryType ≠ some "sailor_search")
    (hd : a.queryType ≠ some "database_status") :
    (generateSQL a).params = specParams a ∧
    (generateSQL a).query =
      (if a.queryType = some "regatta_count" then regattaCountTemplate else "") ++
        condRender (specConds a) ++ orderRender a.queryType := by
  simp only [generateSQL]
  rw [buildFilters_eq_spec]
  simp only [hs, hd, if_neg, if_false]
  constructor
  · simp
  · unfold condRender orderRender
    by_cases hc : specConds a = []
    · rcases ho : orderLookup a.queryType with _ | ob <;>
        simp [hc, hs, ho, str_empty_append, str_append_empty, str_append_assoc]
    · rcases ho : orderLookup a.queryType with _ | ob <;>
        simp [hc, hs, ho, str_empty_append, str_append_empty, str_append_assoc]

/-- Witness intent for C9 with two present fields around its base
template. -/
def c9w : Analysis :=
  { queryType := some "regatta_count", sailorName := some "John",
    year := some "2024" }

theorem c9_witness :
    (generateSQL c9w).params = specParams c9w ∧
    specParams c9w = [Param.pstr "%John%", Param.pint 2024] :=
  ⟨(c9_filter_order_deterministic c9w (by decide) (by decide)).1, by decide⟩

/-- Claim C7 counterexample: a value that is empty after stripping and
trimming sanitizes to the EMPTY STRING, not to null — `''` is falsy and is
treated as absent downstream, but the function's result is not null. -/
theorem c7_counterexample_empty_is_not_null :
    validateInput (some " %; ") "string" = CleanVal.str "" ∧
    CleanVal.str "" ≠ CleanVal.null := by decide

/-- Claim C7 (amended): for every input, `validateInput` with kind
`string` maps null to null and any string `s` to the string
`cleanStringOf s`, which contains neither `%` nor `;` and has no leading
or trailing whitespace; when `s` is empty after stripping and trimming the
result is the empty string (a falsy value treated as absent by the query
builder's presence checks), not null. -/
theorem c7_string_sanitizer_clean :
    validateInput none "string" = CleanVal.null ∧
    ∀ s : String,
      validateInput (some s) "string" = CleanVal.str (cleanStringOf s) ∧
      hasChar (cleanStringOf s).data '%' = false ∧
      hasChar (cleanStringOf s).data ';' = false ∧
      noEdgeWsB (cleanStringOf s) = true := by
  refine ⟨rfl, fun s => ⟨rfl, ?_, ?_, ?_⟩⟩
  · exact hasChar_false _ _ (not_mem_clean s '%' (by decide))
  · exact hasChar_false _ _ (not_mem_clean s ';' (by decide))
  · exact noEdgeWs_of_trim _

/-! ## The bulk loader `bulkInsertData` (database.js 801–915)

The PostgreSQL transaction is modeled by a working copy: all inserts
mutate the copy, and the caller (`runBulkInsert`) publishes the copy only
on `COMMIT` — on any error the pre-transaction state is kept (`ROLLBACK`).
An `Oracle` injects a possible external failure at each numbered query;
the `NaN` produced by `parseInt`/`parseFloat` on non-numeric text is
rejected by the integer/decimal columns at insert time, as the server
does. -/

instance instDecEqExcept {ε α : Type} [DecidableEq ε] [DecidableEq α] :
    DecidableEq (Except ε α) := fun a b =>
  match a, b with
  | .error e1, .error e2 =>
      if h : e1 = e2 then isTrue (by rw [h]) else isFalse (by intro hc; cases hc; exact h rfl)
  | .ok v1, .ok v2 =>
      if h : v1 = v2 then isTrue (by rw [h]) else isFalse (by intro hc; cases hc; exact h rfl)
  | .error _, .ok _ => isFalse (by intro hc; cases hc)
  | .ok _, .error _ => isFalse (by intro hc; cases hc)

/-- A failure schedule for the store: `oracle k = true` makes the `k`-th
query of the transaction fail. -/
abbrev Oracle := Nat → Bool

/-- The no-failure schedule. -/
def oracleNone : Oracle := fun _ => false

/-- A cleaned CSV row (the element of `cleanRows`). -/
structure CleanRow where
  originalLineNumber : Option Nat
  regattaName : Option String
  regattaDate : Option Ymd
  skipper : Option String
  yachtClub : Option String
  category : Option String
  boatName : Option String
  sailNumber : Option String
  position : Option PInt
  totalPoints : Option PDec
deriving DecidableEq, Repr

/-- `field?.trim() || null`: trim, and let an absent or
empty-after-trimming value become null. -/
def trimOrNull (v : Option String) : Option String :=
  match v with
  | none => none
  | some s => if jsTrim s = "" then none else some (jsTrim s)

/-- View an optional CSV cell as the JS value `parseDate` receives. -/
def jsStrOfField (v : Option String) : JsStr :=
  match v with
  | none => JsStr.undef
  | some s => JsStr.str s

/-- The `cleanRows` mapping of `bulkInsertData` (database.js 807–818):
trim text fields to null-or-text, parse the date, and parse the numeric
fields only when the raw cell is truthy (a non-empty string) — otherwise
null. -/
def cleanRowOf (row : RawRow) : CleanRow :=
  { originalLineNumber := row.lineNumber
    regattaName := trimOrNull row.regattaName
    regattaDate := parseDate (jsStrOfField row.regattaDate)
    skipper := trimOrNull row.skipper
    yachtClub := trimOrNull row.yachtClub
    category := trimOrNull row.category
    boatName := trimOrNull row.boatName
    sailNumber := trimOrNull row.sailNumber
    position := if truthyStrOpt row.position = true then
        some (jsParseInt (jsTrim (row.position.getD ""))) else none
    totalPoints := if truthyStrOpt row.totalPoints = true then
        some (jsParseFloat (jsTrim (row.totalPoints.getD ""))) else none }

/-- Whether an optional text value exceeds the 300-character ceiling. -/
def lenGt300 (v : Option String) : Bool :=
  match v with
  | some s => 300 < s.length
  | none => false

/-- The per-row field-length validation (database.js 821–840), checked in
source order with the offending row number in the message. -/
def checkLengthsRow (r : CleanRow) : Except String Unit :=
  if lenGt300 r.regattaName then
    .error ("Regatta name too long (max 300 chars) in row " ++ rowNumStr r.originalLineNumber)
  else if lenGt300 r.category then
    .error ("Category too long (max 300 chars) in row " ++ rowNumStr r.originalLineNumber)
  else if lenGt300 r.boatName then
    .error ("Boat name too long (max 300 chars) in row " ++ rowNumStr r.originalLineNumber)
  else if lenGt300 r.sailNumber then
    .error ("Sail number too long (max 300 chars) in row " ++ rowNumStr r.originalLineNumber)
  else if lenGt300 r.skipper then
    .error ("Skipper name too long (max 300 chars) in row " ++ rowNumStr r.originalLineNumber)
  else if lenGt300 r.yachtClub then
    .error ("Yacht club name too long (max 300 chars) in row " ++ rowNumStr r.originalLineNumber)
  else .ok ()

/-- Length validation over all rows, first failure wins. -/
def checkLengths : List CleanRow → Except String Unit
  | [] => .ok ()
  | r :: rs =>
      match checkLengthsRow r with
      | .error e => .error e
      | .ok _ => checkLengths rs

/-- A row of the `skippers` table. -/
structure Skipper where
  id : Nat
  name : String
  yachtClub : Option String
deriving DecidableEq, Repr

/-- A row of the `races` table. -/
structure Race where
  id : Nat
  regattaName : Option String
  regattaDate : Option Ymd
  category : Option String
  boatName : Option String
  sailNumber : Option String
deriving DecidableEq, Repr

/-- A row of the `results` table. -/
structure ResultRow where
  raceId : Nat
  skipperId : Option Nat
  position : Option Int
  totalPoints : Option (Int × Nat)
deriving DecidableEq, Repr

/-- The three tables plus the serial-id counters. -/
structure DB where
  skippers : List Skipper := []
  races : List Race := []
  results : List ResultRow := []
  nextSkipperId : Nat := 1
  nextRaceId : Nat := 1
deriving DecidableEq, Repr

/-- `COALESCE($2, skippers.yacht_club)`. -/
def coalesceClub (new old : Option String) : Option String :=
  match new with
  | some v => some v
  | none => old

/-- `INSERT INTO skippers ... ON CONFLICT (name) DO UPDATE SET yacht_club
= COALESCE($2, skippers.yacht_club) RETURNING id` against the unique name
column. -/
def upsertSkipper (db : DB) (name : String) (club : Option String) : DB × Nat :=
  match db.skippers.find? (fun s => s.name = name) with
  | some s =>
      ({ db with skippers := db.skippers.map (fun t =>
          if t.name = name then { t with yachtClub := coalesceClub club t.yachtClub } else t) },
       s.id)
  | none =>
      ({ db with
          skippers := db.skippers ++ [⟨db.nextSkipperId, name, club⟩],
          nextSkipperId := db.nextSkipperId + 1 },
       db.nextSkipperId)

/-- `cleanRows.find(r => r.skipper === skipperName)?.yachtClub`: the club
of the FIRST row of the batch bearing the name. -/
def batchClub (cls : List CleanRow) (name : String) : Option String :=
  ((cls.find? (fun r => r.skipper = some name)).map (fun r => r.yachtClub)).getD none

/-- The skipper-upsert loop (database.js 851–869), one query per distinct
name, threading the query counter and the name→id map. -/
def insertSkippers (oracle : Oracle) (cls : List CleanRow) :
    List String → DB → Nat → List (String × Nat) →
    Except String (DB × Nat × List (String × Nat))
  | [], db, qc, map => .ok (db, qc, map)
  | name :: rest, db, qc, map =>
      if oracle qc = true then
        .error ("Error inserting skipper \"" ++ name ++ "\" from row " ++
          rowNumStr (((cls.find? (fun r => r.skipper = some name)).map
            (fun r => r.originalLineNumber)).getD none) ++ ": db error")
      else
        let res := upsertSkipper db name (batchClub cls name)
        insertSkippers oracle cls rest res.1 (qc + 1) (map ++ [(name, res.2)])

/-- The race-insert loop (database.js 872–885), one new race row per
cleaned row, collecting the generated ids in row order. -/
def insertRaces (oracle : Oracle) :
    List CleanRow → DB → Nat → List Nat → Except String (DB × Nat × List Nat)
  | [], db, qc, ids => .ok (db, qc, ids)
  | r :: rest, db, qc, ids =>
      if oracle qc = true then
        .error ("Error inserting race from row " ++ rowNumStr r.originalLineNumber ++ ": db error")
      else
        insertRaces oracle rest
          { db with
              races := db.races ++
                [⟨db.nextRaceId, r.regattaName, r.regattaDate, r.category, r.boatName, r.sailNumber⟩],
              nextRaceId := db.nextRaceId + 1 }
          (qc + 1) (ids ++ [db.nextRaceId])

/-- Truthiness of a parsed integer field (`null`, `NaN` and `0` are
falsy). -/
def truthyPInt : Option PInt → Bool
  | some (.val n) => n ≠ 0
  | _ => false

/-- Truthiness of a parsed decimal field (`null`, `NaN` and `0` are
falsy). -/
def truthyPDec : Option PDec → Bool
  | some (.val n _) => n ≠ 0
  | _ => false

/-- Server-side conversion of the position value into the INTEGER column:
`NaN` is rejected with a syntax error. -/
def pintToSql : Option PInt → Except String (Option Int)
  | none => .ok none
  | some (.val n) => .ok (some n)
  | some .nan => .error "invalid input syntax for type integer"

/-- Server-side conversion of the points value into the DECIMAL column:
`NaN` is rejected with a syntax error. -/
def pdecToSql : Option PDec → Except String (Option (Int × Nat))
  | none => .ok none
  | some (.val n sc) => .ok (some (n, sc))
  | some .nan => .error "invalid input syntax for type numeric"

/-- `skipperMap.get(name)` as an association-list lookup. -/
def lookupId (map : List (String × Nat)) (name : String) : Option Nat :=
  (map.find? (fun p => p.1 = name)).map (fun p => p.2)

/-- The result-insert loop (database.js 888–904): a row with falsy
position AND falsy points is skipped (`continue`) with no query;
otherwise one insert referencing the row-aligned race id and the mapped
skipper id. -/
def insertResults (oracle : Oracle) (skMap : List (String × Nat)) :
    List (CleanRow × Nat) → DB → Nat → Except String (DB × Nat)
  | [], db, qc => .ok (db, qc)
  | (r, raceId) :: rest, db, qc =>
      if truthyPInt r.position = false ∧ truthyPDec r.totalPoints = false then
        insertResults oracle skMap rest db qc
      else
        if oracle qc = true then
          .error ("Error inserting results from row " ++
            rowNumStr r.originalLineNumber ++ ": db error")
        else
          match pintToSql r.position, pdecToSql r.totalPoints with
          | .error m, _ =>
              .error ("Error inserting results from row " ++
                rowNumStr r.originalLineNumber ++ ": " ++ m)
          | .ok _, .error m =>
              .error ("Error inserting results from row " ++
                rowNumStr r.originalLineNumber ++ ": " ++ m)
          | .ok p, .ok tp =>
              insertResults oracle skMap rest
                { db with results := db.results ++
                    [⟨raceId, r.skipper.bind (lookupId skMap), p, tp⟩] }
                (qc + 1)

/-- Model of `bulkInsertData(rows)` inside its transaction (database.js
801–915): clean the rows, validate field lengths, upsert the distinct
skippers (first-occurrence order), insert one race per row, insert one
result per row with a truthy numeric field, then commit.  The success
value is the CLEANED ROW COUNT (the number of input rows). -/
def bulkInsertData (oracle : Oracle) (db : DB) (rows : List RawRow) :
    Except String (DB × Nat) :=
  let cls := rows.map cleanRowOf
  match checkLengths cls with
  | .error e => .error e
  | .ok _ =>
    match insertSkippers oracle cls (dedupFirst (cls.filterMap (fun r => r.skipper))) db 0 [] with
    | .error e => .error e
    | .ok (db1, qc1, map) =>
      match insertRaces oracle cls db1 qc1 [] with
      | .error e => .error e
      | .ok (db2, qc2, raceIds) =>
        match insertResults oracle map (cls.zip raceIds) db2 qc2 with
        | .error e => .error e
        | .ok (db3, qc3) =>
          if oracle qc3 = true then .error "commit failed"
          else .ok (db3, cls.length)

/-- The transactional wrapper: `BEGIN` takes a working copy, `COMMIT`
publishes it, and the `catch` branch issues `ROLLBACK`, keeping the
pre-transaction state. -/
def runBulkInsert (oracle : Oracle) (db : DB) (rows : List RawRow) :
    DB × Except String Nat :=
  match bulkInsertData oracle db rows with
  | .ok (db2, n) => (db2, .ok n)
  | .error e => (db, .error e)

/-- Claim C8: year sanitization returns the parsed integer exactly when it
lies in the inclusive range 1900–2100 and null otherwise — for EVERY
input: a null input, an unparseable input, and an out-of-range parsed year
all map to null, and an in-range parsed year is returned as that very
integer; in particular 1899 and 2101 are rejected while 1900 and 2100 are
kept. -/
theorem c8_year_range :
    validateInput (some "1899") "year" = CleanVal.null ∧
    validateInput (some "1900") "year" = CleanVal.int 1900 ∧
    validateInput (some "2100") "year" = CleanVal.int 2100 ∧
    validateInput (some "2101") "year" = CleanVal.null ∧
    validateInput none "year" = CleanVal.null ∧
    ∀ s : String,
      validateInput (some s) "year" =
        (match jsParseInt s with
         | PInt.nan => CleanVal.null
         | PInt.val y =>
             if 1900 ≤ y ∧ y ≤ 2100 then CleanVal.int y else CleanVal.null) := by
  refine ⟨by decide, by decide, by decide, by decide, rfl, ?_⟩
  intro s
  rcases hj : jsParseInt s with _ | y
  · simp [validateInput, hj]
  · by_cases hr : y < 1900 ∨ 2100 < y
    · have hn : ¬ (1900 ≤ y ∧ y ≤ 2100) := by omega
      simp [validateInput, hj, hr, hn]
    · have hp : 1900 ≤ y ∧ y ≤ 2100 := by omega
      simp [validateInput, hj, hr, hp]

/-! ## Lemmas about the skipper upsert and the loader's loops -/

/-- Claim-level view of the skippers table: the stored club of a name
(`none` when no row has the name). -/
def clubOf (db : DB) (name : String) : Option (Option String) :=
  (db.skippers.find? (fun s => s.name = name)).map (fun s => s.yachtClub)

theorem mem_dedupFirstAux (x : String) :
    ∀ (l seen : List String), x ∈ dedupFirstAux seen l ↔ (x ∈ l ∧ x ∉ seen) := by
  intro l
  induction l with
  | nil => intro seen; simp [dedupFirstAux]
  | cons y ys ih =>
      intro seen
      unfold dedupFirstAux
      by_cases hy : y ∈ seen
      · rw [if_pos hy, ih]
        constructor
        · rintro ⟨hx, hs⟩; exact ⟨List.mem_cons_of_mem _ hx, hs⟩
        · rintro ⟨hx, hs⟩
          rcases List.mem_cons.mp hx with rfl | hx2
          · exact absurd hy hs
          · exact ⟨hx2, hs⟩
      · rw [if_neg hy]
        simp only [List.mem_cons, ih]
        constructor
        · rintro (rfl | ⟨hx, hs⟩)
          · exact ⟨Or.inl rfl, hy⟩
          · exact ⟨Or.inr hx, fun hms => hs (List.mem_append_left _ hms)⟩
        · rintro ⟨rfl | hx, hs⟩
          · exact Or.inl rfl
          · by_cases he : x = y
            · exact Or.inl he
            · refine Or.inr ⟨hx, fun hm => ?_⟩
              rcases List.mem_append.mp hm with h1 | h2
              · exact hs h1
              · simp at h2; exact he h2

theorem mem_dedupFirst (x : String) (l : List String) :
    x ∈ dedupFirst l ↔ x ∈ l := by
  unfold dedupFirst
  rw [mem_dedupFirstAux]
  simp

theorem coalesce_coalesce (c o : Option String) :
    coalesceClub c (coalesceClub c o) = coalesceClub c o := by
  cases c <;> rfl

theorem coalesce_none (c : Option String) : coalesceClub c none = c := by
  cases c <;> rfl

theorem find?_update_self (l : List Skipper) (name : String) (club : Option String) :
    (l.map (fun t => if t.name = name then
        { t with yachtClub := coalesceClub club t.yachtClub } else t)).find?
      (fun s => s.name = name) =
    (l.find? (fun s => s.name = name)).map
      (fun t => { t with yachtClub := coalesceClub club t.yachtClub }) := by
  induction l with
  | nil => rfl
  | cons a t ih =>
      by_cases h : a.name = name
      · simp only [List.map_cons, if_pos h]
        rw [List.find?_cons_of_pos _ (by simp [h]), List.find?_cons_of_pos _ (by simp [h])]
        rfl
      · simp only [List.map_cons, if_neg h]
        rw [List.find?_cons_of_neg _ (by simp [h]), List.find?_cons_of_neg _ (by simp [h])]
        exact ih

theorem find?_update_other (l : List Skipper) (name : String) (club : Option String)
    (m : String) (hm : m ≠ name) :
    (l.map (fun t => if t.name = name then
        { t with yachtClub := coalesceClub club t.yachtClub } else t)).find?
      (fun s => s.name = m) =
    l.find? (fun s => s.name = m) := by
  induction l with
  | nil => rfl
  | cons a t ih =>
      by_cases h : a.name = name
      · have ha : ¬ (a.name = m) := by rw [h]; exact fun he => hm he.symm
        simp only [List.map_cons, if_pos h]
        rw [List.find?_cons_of_neg _ (by simp [ha]), List.find?_cons_of_neg _ (by simp [ha])]
        exact ih
      · simp only [List.map_cons, if_neg h]
        by_cases ha : a.name = m
        · rw [List.find?_cons_of_pos _ (by simp [ha]), List.find?_cons_of_pos _ (by simp [ha])]
        · rw [List.find?_cons_of_neg _ (by simp [ha]), List.find?_cons_of_neg _ (by simp [ha])]
          exact ih

theorem upsert_clubOf_self (db : DB) (name : String) (club : Option String) :
    clubOf (upsertSkipper db name club).1 name =
      some (coalesceClub club ((clubOf db name).getD none)) := by
  unfold upsertSkipper clubOf
  cases hf : db.skippers.find? (fun s => s.name = name) with
  | none =>
      simp only [hf]
      rw [List.find?_append, hf]
      have hone : ([(⟨db.nextSkipperId, name, club⟩ : Skipper)]).find?
          (fun s => s.name = name) = some ⟨db.nextSkipperId, name, club⟩ :=
        List.find?_cons_of_pos _ (by simp)
      simp [hone, coalesce_none]
  | some s =>
      simp only [hf]
      rw [find?_update_self, hf]
      simp

theorem upsert_clubOf_other (db : DB) (name : String) (club : Option String)
    (m : String) (hm : m ≠ name) :
    clubOf (upsertSkipper db name club).1 m = clubOf db m := by
  unfold upsertSkipper clubOf
  cases hf : db.skippers.find? (fun s => s.name = name) with
  | none =>
      simp only [hf]
      rw [List.find?_append]
      have hone : ([(⟨db.nextSkipperId, name, club⟩ : Skipper)]).find?
          (fun s => s.name = m) = none := by
        rw [List.find?_cons_of_neg _ (by simp; exact fun he => hm he.symm)]; rfl
      rw [hone]
      cases db.skippers.find? (fun s => s.name = m) <;> rfl
  | some s =>
      simp only [hf]
      rw [find?_update_other _ _ _ _ hm]

theorem upsert_skipperNames (db : DB) (name : String) (club : Option String) :
    ((upsertSkipper db name club).1.skippers.map (fun s => s.name)) =
      (if (db.skippers.find? (fun s => s.name = name)).isSome then
        db.skippers.map (fun s => s.name)
      else db.skippers.map (fun s => s.name) ++ [name]) := by
  unfold upsertSkipper
  cases hf : db.skippers.find? (fun s => s.name = name) with
  | none =>
      simp only [hf]
      simp
  | some s =>
      simp only [hf]
      simp only [Option.isSome_some, if_true, List.map_map]
      apply List.map_congr_left
      intro a _
      by_cases h : a.name = name <;> simp [h]

theorem upsert_nodup (db : DB) (name : String) (club : Option String)
    (h : (db.skippers.map (fun s => s.name)).Nodup) :
    ((upsertSkipper db name club).1.skippers.map (fun s => s.name)).Nodup := by
  rw [upsert_skipperNames]
  by_cases hi : (db.skippers.find? (fun s => s.name = name)).isSome
  · rw [if_pos hi]; exact h
  · rw [if_neg hi]
    have hn : name ∉ db.skippers.map (fun s => s.name) := by
      intro hmem
      obtain ⟨s, hs, hname⟩ := List.mem_map.mp hmem
      have hnone : db.skippers.find? (fun s => s.name = name) = none :=
        Option.not_isSome_iff_eq_none.mp hi
      have := List.find?_eq_none.mp hnone s hs
      simp [hname] at this
    refine List.Nodup.append h (List.nodup_singleton name) ?_
    intro a ha hb
    simp at hb
    exact hn (hb ▸ ha)

theorem upsert_mem_names (db : DB) (name : String) (club : Option String) (m : String) :
    m ∈ (upsertSkipper db name club).1.skippers.map (fun s => s.name) ↔
      m ∈ db.skippers.map (fun s => s.name) ∨ m = name := by
  rw [upsert_skipperNames]
  by_cases hi : (db.skippers.find? (fun s => s.name = name)).isSome
  · rw [if_pos hi]
    constructor
    · exact Or.inl
    · rintro (hm | rfl)
      · exact hm
      · obtain ⟨s, hs⟩ := Option.isSome_iff_exists.mp hi
        have hps := List.find?_some hs
        have hms := List.mem_of_find?_eq_some hs
        simp only [decide_eq_true_eq] at hps
        exact List.mem_map.mpr ⟨s, hms, hps⟩
  · rw [if_neg hi]
    simp

theorem upsert_races (db : DB) (name : String) (club : Option String) :
    (upsertSkipper db name club).1.races = db.races := by
  unfold upsertSkipper
  cases hf : db.skippers.find? (fun s => s.name = name) <;> simp [hf]

theorem upsert_results (db : DB) (name : String) (club : Option String) :
    (upsertSkipper db name club).1.results = db.results := by
  unfold upsertSkipper
  cases hf : db.skippers.find? (fun s => s.name = name) <;> simp [hf]

theorem insertSkippers_spec (oracle : Oracle) (cls : List CleanRow) :
    ∀ (names : List String) (db : DB) (qc : Nat) (map : List (String × Nat))
      (out : DB × Nat × List (String × Nat)),
      insertSkippers oracle cls names db qc map = .ok out →
      (∀ n, clubOf out.1 n =
        (if n ∈ names then
          some (coalesceClub (batchClub cls n) ((clubOf db n).getD none))
        else clubOf db n)) ∧
      ((db.skippers.map (fun s => s.name)).Nodup →
        (out.1.skippers.map (fun s => s.name)).Nodup) ∧
      (∀ m, m ∈ out.1.skippers.map (fun s => s.name) ↔
        m ∈ db.skippers.map (fun s => s.name) ∨ m ∈ names) ∧
      out.1.races = db.races ∧ out.1.results = db.results := by
  intro names
  induction names with
  | nil =>
      intro db qc map out h
      unfold insertSkippers at h
      cases h
      exact ⟨fun n => by simp, fun hh => hh, fun m => by simp, rfl, rfl⟩
  | cons name rest ih =>
      intro db qc map out h
      unfold insertSkippers at h
      by_cases ho : oracle qc = true
      · rw [if_pos ho] at h; simp at h
      · rw [if_neg ho] at h
        obtain ⟨hclub, hnodup, hmem, hraces, hresults⟩ := ih _ _ _ _ h
        refine ⟨?_, ?_, ?_, ?_, ?_⟩
        · intro n
          have hc := hclub n
          by_cases hr : n ∈ rest
          · rw [if_pos hr] at hc
            rw [hc, if_pos (List.mem_cons_of_mem _ hr)]
            by_cases he : n = name
            · subst he
              rw [upsert_clubOf_self]
              simp [coalesce_coalesce]
            · rw [upsert_clubOf_other db name _ n he]
          · rw [if_neg hr] at hc
            rw [hc]
            by_cases he : n = name
            · subst he
              rw [upsert_clubOf_self, if_pos (List.mem_cons_self _ _)]
            · rw [upsert_clubOf_other db name _ n he,
                if_neg (by simp [he, hr] : ¬ n ∈ name :: rest)]
        · intro hnd
          exact hnodup (upsert_nodup db name _ hnd)
        · intro m
          rw [hmem m, upsert_mem_names]
          simp only [List.mem_cons]
          tauto
        · rw [hraces, upsert_races]
        · rw [hresults, upsert_results]

theorem insertRaces_spec (oracle : Oracle) :
    ∀ (rows : List CleanRow) (db : DB) (qc : Nat) (ids : List Nat)
      (out : DB × Nat × List Nat),
      insertRaces oracle rows db qc ids = .ok out →
      out.1.skippers = db.skippers ∧ out.1.results = db.results ∧
      out.2.2.length = ids.length + rows.length := by
  intro rows
  induction rows with
  | nil =>
      intro db qc ids out h
      unfold insertRaces at h
      cases h
      exact ⟨rfl, rfl, by simp⟩
  | cons r rest ih =>
      intro db qc ids out h
      unfold insertRaces at h
      by_cases ho : oracle qc = true
      · rw [if_pos ho] at h; simp at h
      · rw [if_neg ho] at h
        obtain ⟨h1, h2, h3⟩ := ih _ _ _ _ h
        refine ⟨h1, h2, ?_⟩
        rw [h3]
        simp
        omega

/-- Whether the result loop issues an insert for a cleaned row. -/
def attempted (r : CleanRow) : Bool := truthyPInt r.position || truthyPDec r.totalPoints

/-- Whether an `Except` value is a success. -/
def exOk {α : Type} (e : Except String α) : Bool :=
  match e with
  | .ok _ => true
  | .error _ => false

theorem insertResults_spec (oracle : Oracle) (skMap : List (String × Nat)) :
    ∀ (pairs : List (CleanRow × Nat)) (db : DB) (qc : Nat) (out : DB × Nat),
      insertResults oracle skMap pairs db qc = .ok out →
      out.1.skippers = db.skippers ∧ out.1.races = db.races ∧
      out.1.results.length = db.results.length +
        pairs.countP (fun pr => attempted pr.1) ∧
      ∀ pr ∈ pairs, attempted pr.1 = true →
        exOk (pintToSql pr.1.position) = true ∧ exOk (pdecToSql pr.1.totalPoints) = true := by
  intro pairs
  induction pairs with
  | nil =>
      intro db qc out h
      unfold insertResults at h
      cases h
      exact ⟨rfl, rfl, by simp, by simp⟩
  | cons pr rest ih =>
      intro db qc out h
      obtain ⟨r, rid⟩ := pr
      unfold insertResults at h
      by_cases hskip : truthyPInt r.position = false ∧ truthyPDec r.totalPoints = false
      · rw [if_pos hskip] at h
        obtain ⟨h1, h2, h3, h4⟩ := ih _ _ _ h
        have hatt : attempted r = false := by
          unfold attempted
          rw [hskip.1, hskip.2]
          rfl
        refine ⟨h1, h2, ?_, ?_⟩
        · rw [h3, List.countP_cons]
          simp [hatt]
        · intro q hq hattq
          rcases List.mem_cons.mp hq with he | hmq
          · rw [he] at hattq
            simp only at hattq
            rw [hattq] at hatt
            simp at hatt
          · exact h4 q hmq hattq
      · rw [if_neg hskip] at h
        by_cases ho : oracle qc = true
        · rw [if_pos ho] at h; simp at h
        · rw [if_neg ho] at h
          rcases hp : pintToSql r.position with m | p
          · rw [hp] at h; simp at h
          · rcases hq : pdecToSql r.totalPoints with m | tp
            · rw [hp, hq] at h; simp at h
            · rw [hp, hq] at h
              obtain ⟨h1, h2, h3, h4⟩ := ih _ _ _ h
              have hatt : attempted r = true := by
                unfold attempted
                cases hpos : truthyPInt r.position <;>
                  cases hdec : truthyPDec r.totalPoints <;> simp_all
              refine ⟨h1, h2, ?_, ?_⟩
              · rw [h3, List.countP_cons]
                simp [hatt]
                omega
              · intro q hq2 hattq
                rcases List.mem_cons.mp hq2 with he | hmq
                · rw [he]
                  simp only
                  rw [hp, hq]
                  exact ⟨rfl, rfl⟩
                · exact h4 q hmq hattq

theorem exists_zip_pair {α β : Type} :
    ∀ (l₁ : List α) (l₂ : List β) (a : α), a ∈ l₁ → l₁.length = l₂.length →
      ∃ b, (a, b) ∈ l₁.zip l₂ := by
  intro l₁
  induction l₁ with
  | nil => intro l₂ a h; simp at h
  | cons x xs ih =>
      intro l₂ a ha hlen
      cases l₂ with
      | nil => simp at hlen
      | cons y ys =>
          rcases List.mem_cons.mp ha with rfl | hm
          · exact ⟨y, List.mem_cons_self _ _⟩
          · obtain ⟨b, hb⟩ := ih ys a hm (by simpa using hlen)
            exact ⟨b, List.mem_cons_of_mem _ hb⟩

theorem countP_zip_fst {α β : Type} (p : α → Bool) :
    ∀ (l₁ : List α) (l₂ : List β), l₁.length = l₂.length →
      (l₁.zip l₂).countP (fun pr => p pr.1) = l₁.countP p := by
  intro l₁
  induction l₁ with
  | nil => intro l₂ h; simp
  | cons x xs ih =>
      intro l₂ hlen
      cases l₂ with
      | nil => simp at hlen
      | cons y ys =>
          rw [List.zip_cons_cons, List.countP_cons, List.countP_cons,
            ih ys (by simpa using hlen)]

/-- Deconstruction of a successful `bulkInsertData` call into its three
successful phases. -/
theorem bulkInsertData_ok_parts (oracle : Oracle) (db : DB) (rows : List RawRow)
    (db' : DB) (k : Nat) (h : bulkInsertData oracle db rows = .ok (db', k)) :
    ∃ db1 qc1 map db2 qc2 raceIds db3 qc3,
      insertSkippers oracle (rows.map cleanRowOf)
        (dedupFirst ((rows.map cleanRowOf).filterMap (fun r => r.skipper)))
        db 0 [] = .ok (db1, qc1, map) ∧
      insertRaces oracle (rows.map cleanRowOf) db1 qc1 [] = .ok (db2, qc2, raceIds) ∧
      insertResults oracle map ((rows.map cleanRowOf).zip raceIds) db2 qc2 = .ok (db3, qc3) ∧
      db' = db3 := by
  unfold bulkInsertData at h
  simp only [] at h
  split at h
  · exact absurd h (by simp)
  · split at h
    · exact absurd h (by simp)
    · rename_i x1 db1 qc1 map heqS
      split at h
      · exact absurd h (by simp)
      · rename_i x2 db2 qc2 raceIds heqR
        split at h
        · exact absurd h (by simp)
        · rename_i x3 db3 qc3 heqRes
          split at h
          · exact absurd h (by simp)
          · rw [Except.ok.injEq, Prod.mk.injEq] at h
            exact ⟨db1, qc1, map, db2, qc2, raceIds, db3, qc3, heqS, heqR, heqRes, h.1.symm⟩

/-! ## Claim theorems: bulk loader and date parsing -/

/-- Claim C2: the bulk load of a batch is all-or-nothing.  For every
failure schedule, initial database and batch, if the call returns an error
— whether from the length validation, a skipper upsert, a race insert, a
result insert or the commit — then after the call none of the three tables
has changed. -/
theorem c2_bulk_insert_atomic (oracle : Oracle) (db : DB) (rows : List RawRow)
    (e : String) (h : (runBulkInsert oracle db rows).2 = .error e) :
    (runBulkInsert oracle db rows).1.skippers = db.skippers ∧
    (runBulkInsert oracle db rows).1.races = db.races ∧
    (runBulkInsert oracle db rows).1.results = db.results := by
  unfold runBulkInsert at h ⊢
  cases hb : bulkInsertData oracle db rows with
  | error e2 => simp [hb]
  | ok p => rw [hb] at h; simp at h

/-- A valid row followed by a row whose position is non-numeric but whose
points are numeric: the second insert fails on the `NaN`. -/
def c2wRows : List RawRow :=
  [{ skipper := some "Ann", position := some "1", lineNumber := some 2 },
   { skipper := some "Ben", position := some "abc", totalPoints := some "5",
     lineNumber := some 3 }]

theorem c2_witness :
    (runBulkInsert oracleNone {} c2wRows).1.skippers = ({} : DB).skippers ∧
    (runBulkInsert oracleNone {} c2wRows).1.races = ({} : DB).races ∧
    (runBulkInsert oracleNone {} c2wRows).1.results = ({} : DB).results :=
  c2_bulk_insert_atomic oracleNone {} c2wRows
    "Error inserting results from row 3: invalid input syntax for type integer"
    (by decide)

/-- One batch ingesting the same skipper name twice with two different
non-null clubs. -/
def c3cxRows : List RawRow :=
  [{ skipper := some "Ann", yachtClub := some "AYC" },
   { skipper := some "Ann", yachtClub := some "BYC" }]

/-- Claim C3 counterexample: within one batch, the stored club is the club
of the FIRST row bearing the name, not the most recent non-null value —
ingesting (Ann, AYC) then (Ann, BYC) in one batch stores AYC. -/
theorem c3_counterexample_first_not_latest_club :
    (runBulkInsert oracleNone {} c3cxRows).2 = .ok 2 ∧
    (runBulkInsert oracleNone {} c3cxRows).1.skippers =
      [{ id := 1, name := "Ann", yachtClub := some "AYC" }] ∧
    (some "AYC" : Option String) ≠ some "BYC" := by decide

/-- Claim C3 (amended): skipper names stay globally unique across any
successful batch, and the batch updates each ingested name's club to
`COALESCE(c_first, old)` where `c_first` is the club of the FIRST batch row
bearing the name — so a non-null stored club is never overwritten by a
null incoming club, and across batches the club is the most recent
non-null per-batch first-row club; later rows of the same batch are
ignored. -/
theorem c3_unique_skipper_first_batch_club (oracle : Oracle) (db : DB)
    (rows : List RawRow) (db' : DB) (k : Nat)
    (h : bulkInsertData oracle db rows = .ok (db', k)) :
    ((db.skippers.map (fun s => s.name)).Nodup →
      (db'.skippers.map (fun s => s.name)).Nodup) ∧
    ∀ name, clubOf db' name =
      (if (rows.map cleanRowOf).any (fun r => r.skipper = some name) = true then
        some (coalesceClub (batchClub (rows.map cleanRowOf) name)
          ((clubOf db name).getD none))
      else clubOf db name) := by
  obtain ⟨db1, qc1, map, db2, qc2, raceIds, db3, qc3, hS, hR, hRes, hdb⟩ :=
    bulkInsertData_ok_parts oracle db rows db' k h
  subst hdb
  obtain ⟨hclub, hnodup, hmem, hSr, hSres⟩ := insertSkippers_spec oracle _ _ _ _ _ _ hS
  obtain ⟨hRsk, hRres, hRlen⟩ := insertRaces_spec oracle _ _ _ _ _ hR
  obtain ⟨hResSk, hResRa, hResLen, hResOk⟩ := insertResults_spec oracle _ _ _ _ _ hRes
  dsimp only at hclub hnodup hmem hSr hSres hRsk hRres hRlen hResSk hResRa hResLen
  have hsk : db'.skippers = db1.skippers := by rw [hResSk, hRsk]
  constructor
  · intro hnd
    rw [hsk]
    exact hnodup hnd
  · intro name
    have hco : clubOf db' name = clubOf db1 name := by unfold clubOf; rw [hsk]
    rw [hco, hclub name]
    have hcond : (name ∈ dedupFirst ((rows.map cleanRowOf).filterMap
        (fun r => r.skipper))) ↔
        ((rows.map cleanRowOf).any (fun r => r.skipper = some name) = true) := by
      rw [mem_dedupFirst, List.mem_filterMap, List.any_eq_true]
      constructor
      · rintro ⟨r, hr, he⟩; exact ⟨r, hr, by simp [he]⟩
      · rintro ⟨r, hr, he⟩; simp at he; exact ⟨r, hr, he⟩
    by_cases hcnd : (rows.map cleanRowOf).any (fun r => r.skipper = some name) = true
    · rw [if_pos (hcond.mpr hcnd), if_pos hcnd]
    · rw [if_neg (fun hm => hcnd (hcond.mp hm)), if_neg hcnd]

/-- A database already holding Ann with a known club. -/
def c3wDb : DB :=
  { skippers := [{ id := 1, name := "Ann", yachtClub := some "SYC" }],
    nextSkipperId := 2 }

/-- A later batch re-ingesting Ann with no club. -/
def c3wRows : List RawRow := [{ skipper := some "Ann" }]

/-- The database after the re-ingestion batch. -/
def c3wAfter : DB :=
  match bulkInsertData oracleNone c3wDb c3wRows with
  | .ok p => p.1
  | .error _ => c3wDb

theorem c3_witness : clubOf c3wAfter "Ann" = some (some "SYC") := by
  have h : bulkInsertData oracleNone c3wDb c3wRows = .ok (c3wAfter, 1) := by decide
  have h2 := (c3_unique_skipper_first_batch_club oracleNone c3wDb c3wRows
    c3wAfter 1 h).2 "Ann"
  rw [h2]
  decide

/-- A single row whose Position is non-empty but not numeric, with no
points. -/
def c6cxRows : List RawRow :=
  [{ skipper := some "Ann", position := some "abc", lineNumber := some 2 }]

/-- Claim C6 counterexample: a non-empty non-numeric Position parses to
`NaN` with no row-level error; because `NaN` is falsy and the points are
absent, the result row is silently skipped — the import succeeds and
stores nothing for it. -/
theorem c6_counterexample_silent_drop :
    (c6cxRows.map cleanRowOf).map (fun r => r.position) = [some PInt.nan] ∧
    (runBulkInsert oracleNone {} c6cxRows).2 = .ok 1 ∧
    (runBulkInsert oracleNone {} c6cxRows).1.results = [] := by decide

/-- Claim C6 (amended): row normalization never errors on a non-numeric
Position or Total_Points — it produces `NaN`.  On a successful batch the
stored result count equals the count of rows with a truthy numeric field,
and every `NaN`-bearing row was in the silently-skipped class (its other
numeric field falsy); a `NaN` that reaches an insert makes the whole batch
fail at the database instead. -/
theorem c6_nonnumeric_fails_or_skips (oracle : Oracle) (db : DB)
    (rows : List RawRow) (db' : DB) (k : Nat)
    (h : bulkInsertData oracle db rows = .ok (db', k)) :
    db'.results.length = db.results.length +
      (rows.map cleanRowOf).countP (fun r => attempted r) ∧
    ∀ r ∈ rows.map cleanRowOf,
      (r.position = some PInt.nan → truthyPDec r.totalPoints = false) ∧
      (r.totalPoints = some PDec.nan → truthyPInt r.position = false) := by
  obtain ⟨db1, qc1, map, db2, qc2, raceIds, db3, qc3, hS, hR, hRes, hdb⟩ :=
    bulkInsertData_ok_parts oracle db rows db' k h
  subst hdb
  obtain ⟨_, _, _, _, hresS⟩ := insertSkippers_spec oracle _ _ _ _ _ _ hS
  obtain ⟨_, hRres, hRlen⟩ := insertRaces_spec oracle _ _ _ _ _ hR
  obtain ⟨_, _, hcount, hok⟩ := insertResults_spec oracle _ _ _ _ _ hRes
  dsimp only at hresS hRres hRlen hcount
  have hlen : (rows.map cleanRowOf).length = raceIds.length := by
    rw [hRlen]
    simp
  constructor
  · rw [hcount, hRres, hresS, countP_zip_fst _ _ _ hlen]
  · intro r hr
    constructor
    · intro hnan
      by_contra htp
      have htp' : truthyPDec r.totalPoints = true := by
        cases hv : truthyPDec r.totalPoints
        · exact absurd hv htp
        · rfl
      have hatt : attempted r = true := by
        unfold attempted
        rw [htp']
        simp
      obtain ⟨b, hb⟩ := exists_zip_pair _ raceIds r hr hlen
      have hq := (hok (r, b) hb hatt).1
      rw [hnan] at hq
      simp [pintToSql, exOk] at hq
    · intro hnan
      by_contra htp
      have htp' : truthyPInt r.position = true := by
        cases hv : truthyPInt r.position
        · exact absurd hv htp
        · rfl
      have hatt : attempted r = true := by
        unfold attempted
        rw [htp']
        rfl
      obtain ⟨b, hb⟩ := exists_zip_pair _ raceIds r hr hlen
      have hq := (hok (r, b) hb hatt).2
      rw [hnan] at hq
      simp [pdecToSql, exOk] at hq

/-- A batch with one attempted result row and one NaN-position row that is
silently skipped. -/
def c6wRows : List RawRow :=
  [{ skipper := some "Ann", position := some "2", totalPoints := some "3.5",
     lineNumber := some 2 },
   { skipper := some "Ann", position := some "abc", lineNumber := some 3 }]

/-- The database after the mixed batch. -/
def c6wAfter : DB :=
  match bulkInsertData oracleNone {} c6wRows with
  | .ok p => p.1
  | .error _ => {}

theorem c6_witness :
    c6wAfter.results.length = ({} : DB).results.length +
      (c6wRows.map cleanRowOf).countP (fun r => attempted r) ∧
    (c6wRows.map cleanRowOf).countP (fun r => attempted r) = 1 :=
  ⟨(c6_nonnumeric_fails_or_skips oracleNone {} c6wRows c6wAfter 2 (by decide)).1,
   by decide⟩

/-- The row whose date is the unparseable string of the claim. -/
def c5ndRow : RawRow :=
  { regattaName := some "Spring Cup", skipper := some "Ann",
    regattaDate := some "not-a-date", lineNumber := some 2 }

/-- Claim C5: date parsing round-trips — `03/05/2024` is the local
calendar date 2024-03-05 (built by components, not UTC string parsing),
`2024-03-05` is 2024-03-05, `March 5, 2024` is 2024-03-05 — and the
upload-route row validation fails an unparseable date with an error naming
the offending string and the row's line number. -/
theorem c5_date_round_trip :
    parseDate (JsStr.str "03/05/2024") = some ⟨2024, 3, 5⟩ ∧
    parseDate (JsStr.str "2024-03-05") = some ⟨2024, 3, 5⟩ ∧
    parseDate (JsStr.str "March 5, 2024") = some ⟨2024, 3, 5⟩ ∧
    validateRow c5ndRow = .error "Invalid date format in row 2: not-a-date" := by
  decide

/-- Claim C10: `parseDate` is total — on null, undefined, the empty string
and any unparseable string it returns null rather than raising, and on
every input it returns either a date or null. -/
theorem c10_parseDate_total :
    parseDate JsStr.null = none ∧
    parseDate JsStr.undef = none ∧
    parseDate (JsStr.str "") = none ∧
    parseDate (JsStr.str "not-a-date") = none ∧
    ∀ v : JsStr, parseDate v = none ∨ ∃ d : Ymd, parseDate v = some d := by
  refine ⟨rfl, rfl, rfl, by decide, ?_⟩
  intro v
  cases hp : parseDate v with
  | none => exact Or.inl rfl
  | some d => exact Or.inr ⟨d, rfl⟩

end CsvSql
